import Mathlib

/-!
# OscapScannerBase (scap-workbench)

A shallow embedding of `src/OscapScannerBase.cpp`: completion signalling, the
prerequisite check, the two argument builders, the incremental decoder of the
`oscap --progress` output (`tryToReadStdOut`) and the stderr watcher, followed
by theorems about them.

Qt signals (`emit errorMessage(...)` and friends) are modelled as a list of
emitted `Signal` values returned next to the updated object.
-/

namespace OscapScanner

/-! ## Strings -/

/-- A `QString`, as the sequence of its characters. -/
abbrev QString := List Char

/-- A `QStringList`. -/
abbrev QStringList := List QString

/-- A C string literal converted to a `QString`. -/
def q (s : String) : QString := s.toList

/-- `QString::arg(a)` for format strings whose only place marker is `%1`:
every occurrence of `%1` is replaced by `a`. -/
def arg : QString → QString → QString
  | [], _ => []
  | [c], _ => [c]
  | c :: d :: rest, a =>
    if c = '%' ∧ d = '1' then a ++ arg rest a else c :: arg (d :: rest) a

/-! ## Collaborators declared outside this file -/

/-- Modelled from the spec: `OscapCapabilities` (its header is not part of the
sources at hand), the six independent feature flags of the detected tool and
the version string used for diagnostics; the fields carry the names of the
accessors called in `OscapScannerBase.cpp`. -/
structure OscapCapabilities where
  baselineSupport : Bool
  progressReporting : Bool
  onlineRemediation : Bool
  sourceDatastreams : Bool
  ARFInput : Bool
  tailoringSupport : Bool
  getOpenSCAPVersion : QString
  deriving DecidableEq

/-- Modelled from the spec: the `ScannerMode` enumeration of `Scanner.h`
(online scan, online remediation, offline remediation). -/
inductive ScannerMode where
  | SM_SCAN
  | SM_SCAN_ONLINE_REMEDIATION
  | SM_OFFLINE_REMEDIATION
  deriving DecidableEq

/-- Modelled from the spec: the part of `ScanningSession` that the scanner
queries; the fields carry the names of the accessors called in
`OscapScannerBase.cpp`. -/
structure ScanningSession where
  isSDS : Bool
  hasTailoring : Bool
  getDatastreamID : QString
  getComponentID : QString
  getProfileID : QString
  deriving DecidableEq

/-- The signals an `OscapScannerBase` emits. -/
inductive Signal where
  | errorMessage (message : QString)
  | warningMessage (message : QString)
  | progressReport (rule_id : QString) (result : QString)
  deriving DecidableEq

/-! ## The scanner object -/

/-- The member variables of `OscapScannerBase` (with the inherited
`mScannerMode`, `mSession` and `mCapabilities` it reads). -/
structure OscapScannerBase where
  mScannerMode : ScannerMode
  mSession : ScanningSession
  mCapabilities : OscapCapabilities
  mLastRuleID : QString
  mReadingRuleID : Bool
  mReadBuffer : QString
  mCancelRequested : Bool
  mResults : List Char
  mReport : List Char
  mARF : List Char
  deriving DecidableEq

/-- What a member function leaves behind: its return value, the signals it
emitted in order, and the object afterwards. -/
structure Outcome (α : Type) where
  ret : α
  signals : List Signal
  self : OscapScannerBase

/-- The constructor `OscapScannerBase::OscapScannerBase()`, for a scanner that
was given the mode, session and capabilities. -/
def OscapScannerBase.construct (mode : ScannerMode) (session : ScanningSession)
    (capabilities : OscapCapabilities) : OscapScannerBase :=
  { mScannerMode := mode
    mSession := session
    mCapabilities := capabilities
    mLastRuleID := q ""
    mReadingRuleID := true
    mReadBuffer := q ""
    mCancelRequested := false
    mResults := []
    mReport := []
    mARF := [] }

/-! ## checkPrerequisites -/

def baselineFormat : QString :=
  q ("oscap tool doesn't support basic features required for workbench. " ++
     "Please make sure you have openscap 0.8.0 or newer. " ++
     "oscap version was detected as '%1'.")

def onlineRemediationFormat : QString :=
  q ("oscap tool doesn't support online remediation. " ++
     "Please make sure you have openscap 0.9.5 or newer if you want " ++
     "to use online remediation. " ++
     "oscap version was detected as '%1'.")

def arfInputFormat : QString :=
  q ("oscap tool doesn't support taking ARFs (result datastreams) as input. " ++
     "Please make sure you have openscap <NOT IMPLEMENTED YET> or newer if you want " ++
     "to use offline remediation. " ++
     "oscap version was detected as '%1'.")

def sourceDatastreamsFormat : QString :=
  q ("oscap tool doesn't support source datastreams as input. " ++
     "Please make sure you have openscap 0.9.0 or newer if you want " ++
     "to use source datastreams. " ++
     "oscap version was detected as '%1'.")

def tailoringFormat : QString :=
  q ("oscap tool doesn't support XCCDF tailoring but the session uses tailoring. " ++
     "Please make sure you have openscap 0.9.12 or newer on the target machine if you " ++
     "want to use tailoring features of scap-workbench. " ++
     "oscap version was detected as '%1'.")

/-- The member function `OscapScannerBase::checkPrerequisites()`. -/
def checkPrerequisites (self : OscapScannerBase) : Outcome Bool :=
  if !self.mCapabilities.baselineSupport then
    ⟨false, [Signal.errorMessage (arg baselineFormat self.mCapabilities.getOpenSCAPVersion)], self⟩
  else if self.mScannerMode = ScannerMode.SM_SCAN_ONLINE_REMEDIATION
      ∧ !self.mCapabilities.onlineRemediation then
    ⟨false, [Signal.errorMessage
      (arg onlineRemediationFormat self.mCapabilities.getOpenSCAPVersion)], self⟩
  else if self.mScannerMode = ScannerMode.SM_OFFLINE_REMEDIATION
      ∧ !self.mCapabilities.ARFInput then
    ⟨false, [Signal.errorMessage (arg arfInputFormat self.mCapabilities.getOpenSCAPVersion)], self⟩
  else if self.mSession.isSDS ∧ !self.mCapabilities.sourceDatastreams then
    ⟨false, [Signal.errorMessage
      (arg sourceDatastreamsFormat self.mCapabilities.getOpenSCAPVersion)], self⟩
  else if self.mSession.hasTailoring ∧ !self.mCapabilities.tailoringSupport then
    ⟨false, [Signal.errorMessage (arg tailoringFormat self.mCapabilities.getOpenSCAPVersion)], self⟩
  else
    ⟨true, [], self⟩

/-! ## buildEvaluationArgs -/

/-- The member function `OscapScannerBase::buildEvaluationArgs`. -/
def buildEvaluationArgs (self : OscapScannerBase) (inputFile tailoringFile resultFile
    reportFile arfFile : QString) (onlineRemediation : Bool) : QStringList :=
  let ret : QStringList := []
  let ret := ret ++ [q "xccdf"]
  let ret := ret ++ [q "eval"]
  let ret :=
    if self.mSession.isSDS then
      let datastreamId := self.mSession.getDatastreamID
      let componentId := self.mSession.getComponentID
      let ret :=
        if !datastreamId.isEmpty then (ret ++ [q "--datastream-id"]) ++ [datastreamId] else ret
      let ret :=
        if !componentId.isEmpty then (ret ++ [q "--xccdf-id"]) ++ [componentId] else ret
      ret
    else ret
  let ret :=
    if !tailoringFile.isEmpty then (ret ++ [q "--tailoring-file"]) ++ [tailoringFile] else ret
  let profileId := self.mSession.getProfileID
  let ret := if !profileId.isEmpty then (ret ++ [q "--profile"]) ++ [profileId] else ret
  let ret := ret ++ [q "--results"]
  let ret := ret ++ [resultFile]
  let ret := ret ++ [q "--results-arf"]
  let ret := ret ++ [arfFile]
  let ret := ret ++ [q "--report"]
  let ret := ret ++ [reportFile]
  let ret := if self.mCapabilities.progressReporting then ret ++ [q "--progress"] else ret
  let ret :=
    if onlineRemediation && self.mCapabilities.onlineRemediation then ret ++ [q "--remediate"]
    else ret
  let ret := ret ++ [inputFile]
  ret

/-! ## buildOfflineRemediationArgs -/

/-- The member function `OscapScannerBase::buildOfflineRemediationArgs`. -/
def buildOfflineRemediationArgs (self : OscapScannerBase) (resultInputFile resultFile
    reportFile arfFile : QString) : QStringList :=
  let ret : QStringList := []
  let ret := ret ++ [q "xccdf"]
  let ret := ret ++ [q "remediate"]
  let ret := ret ++ [q "--results"]
  let ret := ret ++ [resultFile]
  let ret := ret ++ [q "--results-arf"]
  let ret := ret ++ [arfFile]
  let ret := ret ++ [q "--report"]
  let ret := ret ++ [reportFile]
  let ret := if self.mCapabilities.progressReporting then ret ++ [q "--progress"] else ret
  let ret := ret ++ [resultInputFile]
  ret

/-! ## tryToReadStdOut -/

/-- What the `QProcess` answers during one call of `tryToReadStdOut`:
`bytesAvailable() <= 0`; or a `read(buffer, 1)` that does not return 1 and
leaves `buffer[0]` at its initial `'\0'`; or a successful read of one byte. -/
inductive StdOutRead where
  | noBytesAvailable
  | readFailed
  | byte (c : Char)
  deriving DecidableEq

def readFailedFormat : QString :=
  q ("Error: Could not read from stdout of running 'oscap' process. " ++
     "This is very strange and most likely a bug. " ++
     "Read buffer is '%1'.")

def unexpectedColonFormat : QString :=
  q ("Error when parsing scan progress output from stdout of the 'oscap' process. " ++
     "':' encountered while not reading rule ID, newline and/or rule result are missing! " ++
     "Read buffer is '%1'.")

def unexpectedNewlineFormat : QString :=
  q ("Error when parsing scan progress output from stdout of the 'oscap' process. " ++
     "Newline encountered while reading rule ID, rule result and/or ':' are missing! " ++
     "Read buffer is '%1'.")

/-- The member function `OscapScannerBase::tryToReadStdOut`, one call. -/
def tryToReadStdOut (self : OscapScannerBase) (process : StdOutRead) : Outcome Bool :=
  match process with
  | StdOutRead.noBytesAvailable => ⟨false, [], self⟩
  | process =>
    let buffer0 : Char :=
      match process with
      | StdOutRead.byte c => c
      | _ => Char.ofNat 0
    let emitted : List Signal :=
      match process with
      | StdOutRead.byte _ => []
      | _ => [Signal.warningMessage (arg readFailedFormat self.mReadBuffer)]
    if !self.mCapabilities.progressReporting then
      ⟨true, emitted, self⟩
    else if buffer0 = ':' then
      let self := { self with mLastRuleID := self.mReadBuffer }
      let emitted :=
        if self.mReadingRuleID then
          emitted ++ [Signal.progressReport self.mLastRuleID (q "processing")]
        else
          emitted ++ [Signal.warningMessage (arg unexpectedColonFormat self.mReadBuffer)]
      let self := { self with mReadBuffer := q "" }
      let self := { self with mReadingRuleID := false }
      ⟨true, emitted, self⟩
    else if buffer0 = '\n' then
      let emitted :=
        if !self.mReadingRuleID then
          emitted ++ [Signal.progressReport self.mLastRuleID self.mReadBuffer]
        else
          emitted ++ [Signal.warningMessage (arg unexpectedNewlineFormat self.mReadBuffer)]
      let self := { self with mReadBuffer := q "" }
      let self := { self with mReadingRuleID := true }
      ⟨true, emitted, self⟩
    else
      ⟨true, emitted, { self with mReadBuffer := self.mReadBuffer ++ [buffer0] }⟩

/-- The read loop of the caller on a stretch of output whose reads all succeed:
one `tryToReadStdOut` call per byte, the emitted signals in order and the
scanner afterwards. -/
def feedStdOut (self : OscapScannerBase) : List Char → List Signal × OscapScannerBase
  | [] => ([], self)
  | c :: rest =>
    let r := tryToReadStdOut self (StdOutRead.byte c)
    let r2 := feedStdOut r.self rest
    (r.signals ++ r2.1, r2.2)

/-- What the `QProcess` answers to one call of `tryToReadStdOut` when it holds
the bytes `pending` of standard output and reads succeed: no bytes available,
or the first pending byte. -/
def nextStdOutRead : List Char → StdOutRead
  | [] => StdOutRead.noBytesAvailable
  | c :: _ => StdOutRead.byte c

/-- The bytes the `QProcess` holds after that call: `read(buffer, 1)` takes the
first pending byte; with no bytes available the function returns before
reading. -/
def afterStdOutRead : List Char → List Char
  | [] => []
  | _ :: rest => rest

/-- The read loop `while (tryToReadStdOut(process));` that the return value of
`tryToReadStdOut` serves: the function is called until it returns false. The
result holds the signals emitted, the scanner and the bytes the process still
holds when the loop ends; `none` when the fuel runs out before that. -/
def readStdOutLoop : Nat → OscapScannerBase → List Char →
    Option (List Signal × OscapScannerBase × List Char)
  | 0, _, _ => none
  | fuel + 1, self, pending =>
    let r := tryToReadStdOut self (nextStdOutRead pending)
    if r.ret then
      match readStdOutLoop fuel r.self (afterStdOutRead pending) with
      | none => none
      | some (signals, self2, left) => some (r.signals ++ signals, self2, left)
    else
      some (r.signals, r.self, pending)

/-- Output arriving in chunks: each chunk is added to the bytes the process
holds and the read loop runs until `tryToReadStdOut` returns false, before
the next chunk arrives. -/
def feedChunks (fuel : Nat) (self : OscapScannerBase) (pending : List Char) :
    List (List Char) → Option (List Signal × OscapScannerBase × List Char)
  | [] => some ([], self, pending)
  | chunk :: rest =>
    match readStdOutLoop fuel self (pending ++ chunk) with
    | none => none
    | some (signals, self2, left) =>
      match feedChunks fuel self2 left rest with
      | none => none
      | some (signals2, self3, left2) => some (signals ++ signals2, self3, left2)

/-- The bytes the tool writes for a list of (rule id, result) pairs:
`ruleId ++ ":" ++ result ++ "\n"` for each pair. -/
def progressOutput : List (QString × QString) → List Char
  | [] => []
  | (rule_id, result) :: rest => rule_id ++ q ":" ++ result ++ q "\n" ++ progressOutput rest

/-- A string free of the two delimiter bytes. -/
def delimiterFree (s : QString) : Prop := ':' ∉ s ∧ '\n' ∉ s

instance (s : QString) : Decidable (delimiterFree s) := by
  unfold delimiterFree; infer_instance

/-- Capabilities of a tool that supports everything. -/
def fullCapabilities (version : QString) : OscapCapabilities :=
  ⟨true, true, true, true, true, true, version⟩

/-- A plain XCCDF session without tailoring or profile. -/
def plainSession : ScanningSession := ⟨false, false, [], [], []⟩

/-- A freshly constructed scanner used in the examples. -/
def freshScanner : OscapScannerBase :=
  OscapScannerBase.construct ScannerMode.SM_SCAN plainSession (fullCapabilities (q "1.0.0"))

/-- The signals a well-formed progress stream makes the decoder emit: for each
pair the rule id with the result "processing", then the rule id with its
result. -/
def progressSignals : List (QString × QString) → List Signal
  | [] => []
  | (rule_id, result) :: rest =>
    Signal.progressReport rule_id (q "processing") ::
      Signal.progressReport rule_id result :: progressSignals rest

/-- Every string of every pair is free of delimiters. -/
def wellFormedPairs (pairs : List (QString × QString)) : Prop :=
  ∀ p ∈ pairs, delimiterFree p.1 ∧ delimiterFree p.2

/-- The rule id left in `mLastRuleID` after a well-formed stream. -/
def lastRuleIdOf (init : QString) : List (QString × QString) → QString
  | [] => init
  | (rule_id, _) :: rest => lastRuleIdOf rule_id rest

instance (pairs : List (QString × QString)) : Decidable (wellFormedPairs pairs) := by
  unfold wellFormedPairs; infer_instance

/-- A scanner in the middle of reading the rule id `ruleA`. -/
def readingRuleA : OscapScannerBase := { freshScanner with mReadBuffer := q "ruleA" }

/-- A scanner in the middle of reading the result `pass` of rule `ruleA`. -/
def readingPass : OscapScannerBase :=
  { freshScanner with mLastRuleID := q "ruleA", mReadingRuleID := false, mReadBuffer := q "pass" }

/-- The progress events among the emitted signals, in order. -/
def progressReports : List Signal → List (QString × QString)
  | [] => []
  | Signal.progressReport rule_id result :: rest => (rule_id, result) :: progressReports rest
  | _ :: rest => progressReports rest

/-- A scanner whose tool does not report progress. -/
def silentToolScanner : OscapScannerBase :=
  { readingPass with
    mCapabilities := { fullCapabilities (q "0.8.0") with progressReporting := false } }

/-- A session that uses tailoring. -/
def tailoredSession : ScanningSession := { plainSession with hasTailoring := true }

/-- Capabilities with every flag true except tailoringSupport. -/
def noTailoringCapabilities (version : QString) : OscapCapabilities :=
  { fullCapabilities version with tailoringSupport := false }

/-- A source datastream session with datastream id "ds1", an empty component id
and the profile "p1". -/
def datastreamSession : ScanningSession :=
  { isSDS := true, hasTailoring := false, getDatastreamID := q "ds1", getComponentID := q "",
    getProfileID := q "p1" }

/-- A scanner for the source datastream session whose tool reports progress but
cannot remediate online. -/
def datastreamScanner : OscapScannerBase :=
  OscapScannerBase.construct ScannerMode.SM_SCAN_ONLINE_REMEDIATION datastreamSession
    { fullCapabilities (q "0.9.4") with onlineRemediation := false }

/-! ## cancel and signalCompletion -/

/-- The member function `OscapScannerBase::cancel`. -/
def cancel (self : OscapScannerBase) : OscapScannerBase :=
  { self with mCancelRequested := true }

/-- The member function `OscapScannerBase::signalCompletion`. The base class
function `Scanner::signalCompletion` that it calls first is defined outside
`OscapScannerBase.cpp` and is the parameter `base`: any function of the flag
and the object, free to emit signals and to change the object. -/
def signalCompletion (base : Bool → OscapScannerBase → Outcome Unit)
    (self : OscapScannerBase) (canceled : Bool) : Outcome Unit :=
  let r := base canceled self
  let self := r.self
  let self := { self with mLastRuleID := q "" }
  let self := { self with mReadingRuleID := true }
  let self := { self with mReadBuffer := q "" }
  let self := { self with mCancelRequested := false }
  ⟨(), r.signals, self⟩

/-! ## watchStdErr -/

def stdErrFormat : QString :=
  q ("The 'oscap' process has written the following content to stderr:\n" ++
     "%1")

/-- The loop `while (process.canReadLine()) errorMessage += process.readLine();`
over the complete lines the process holds, each as `readLine` returns it. -/
def readStdErrLines (errorMessage : QString) : List QString → QString
  | [] => errorMessage
  | line :: rest => readStdErrLines (errorMessage ++ line) rest

/-- The member function `OscapScannerBase::watchStdErr`; `process` is the
sequence of complete lines available on the standard error channel, each as
the text that `errorMessage += process.readLine()` appends. -/
def watchStdErr (self : OscapScannerBase) (process : List QString) : Outcome Unit :=
  let errorMessage : QString := []
  let errorMessage := readStdErrLines errorMessage process
  if !errorMessage.isEmpty then
    ⟨(), [Signal.warningMessage (arg stdErrFormat errorMessage)], self⟩
  else
    ⟨(), [], self⟩

/-! ## Vocabulary of the statements -/

/-- The flags that only `buildEvaluationArgs` adds: remediation, profile,
tailoring and the two datastream selectors. -/
def evaluationOnlyFlags : List QString :=
  [q "--remediate", q "--profile", q "--tailoring-file", q "--datastream-id", q "--xccdf-id"]

/-- All flag tokens of the two builders. -/
def flagTokens : List QString :=
  [q "--datastream-id", q "--xccdf-id", q "--tailoring-file", q "--profile", q "--results",
   q "--results-arf", q "--report", q "--progress", q "--remediate"]

/-- The two delimiter bytes of the progress protocol. -/
def isDelimiter (c : Char) : Bool := c == ':' || c == '\n'

/-- A base class `signalCompletion` that emits nothing and changes nothing. -/
def quietBase (_canceled : Bool) (self : OscapScannerBase) : Outcome Unit := ⟨(), [], self⟩

/-- A scanner in offline remediation mode with full capabilities. -/
def offlineScanner : OscapScannerBase :=
  OscapScannerBase.construct ScannerMode.SM_OFFLINE_REMEDIATION plainSession
    (fullCapabilities (q "1.0.0"))

/-- A scanner in online remediation mode with full capabilities. -/
def onlineRemediationScanner : OscapScannerBase :=
  OscapScannerBase.construct ScannerMode.SM_SCAN_ONLINE_REMEDIATION datastreamSession
    (fullCapabilities (q "1.0.0"))

/-- Every occurrence of `flag` in the list is immediately followed by `value`. -/
def eachFollowedBy (flag value : QString) : QStringList → Prop
  | [] => True
  | x :: rest => (x = flag → rest.head? = some value) ∧ eachFollowedBy flag value rest

/-- Every occurrence of the flag is followed by the value and the list does not
end with the flag. -/
def closedFor (flag value : QString) (l : QStringList) : Prop :=
  eachFollowedBy flag value l ∧ l.getLast? ≠ some flag

/-- Two scanners that the decoder cannot tell apart: same progressReporting
capability, same buffer, same phase and, while a result is being read, the same
last rule id. -/
def sameDecoding (s t : OscapScannerBase) : Prop :=
  s.mCapabilities.progressReporting = t.mCapabilities.progressReporting
  ∧ s.mReadBuffer = t.mReadBuffer
  ∧ s.mReadingRuleID = t.mReadingRuleID
  ∧ (s.mReadingRuleID = false → s.mLastRuleID = t.mLastRuleID)

/-- The part of a byte sequence that follows its last delimiter (all of it when
it has none). -/
def afterLastDelimiter (s : List Char) : List Char :=
  (s.reverse.takeWhile fun c => !isDelimiter c).reverse

/-! ## Lemmas on the decoder -/

theorem tryToReadStdOut_colon (self : OscapScannerBase)
    (h : self.mCapabilities.progressReporting = true) :
    tryToReadStdOut self (StdOutRead.byte ':') =
      ⟨true,
       [if self.mReadingRuleID then Signal.progressReport self.mReadBuffer (q "processing")
        else Signal.warningMessage (arg unexpectedColonFormat self.mReadBuffer)],
       { self with mLastRuleID := self.mReadBuffer, mReadBuffer := [], mReadingRuleID := false }⟩ := by
  cases hr : self.mReadingRuleID <;> simp [tryToReadStdOut, h, hr, q]

theorem tryToReadStdOut_newline (self : OscapScannerBase)
    (h : self.mCapabilities.progressReporting = true) :
    tryToReadStdOut self (StdOutRead.byte '\n') =
      ⟨true,
       [if self.mReadingRuleID then
          Signal.warningMessage (arg unexpectedNewlineFormat self.mReadBuffer)
        else Signal.progressReport self.mLastRuleID self.mReadBuffer],
       { self with mReadBuffer := [], mReadingRuleID := true }⟩ := by
  cases hr : self.mReadingRuleID <;> simp [tryToReadStdOut, h, hr, q]

theorem tryToReadStdOut_other (self : OscapScannerBase) (c : Char)
    (h : self.mCapabilities.progressReporting = true) (h1 : c ≠ ':') (h2 : c ≠ '\n') :
    tryToReadStdOut self (StdOutRead.byte c) =
      ⟨true, [], { self with mReadBuffer := self.mReadBuffer ++ [c] }⟩ := by
  simp [tryToReadStdOut, h, h1, h2]

theorem tryToReadStdOut_no_progress (self : OscapScannerBase) (c : Char)
    (h : self.mCapabilities.progressReporting = false) :
    tryToReadStdOut self (StdOutRead.byte c) = ⟨true, [], self⟩ := by
  simp [tryToReadStdOut, h]

theorem feedStdOut_append (self : OscapScannerBase) (a b : List Char) :
    feedStdOut self (a ++ b) =
      ((feedStdOut self a).1 ++ (feedStdOut (feedStdOut self a).2 b).1,
       (feedStdOut (feedStdOut self a).2 b).2) := by
  induction a generalizing self with
  | nil => simp [feedStdOut]
  | cons c rest ih => simp [feedStdOut, ih, List.append_assoc]

theorem feedStdOut_plain (self : OscapScannerBase) (l : List Char)
    (h : self.mCapabilities.progressReporting = true) (hl : delimiterFree l) :
    feedStdOut self l = ([], { self with mReadBuffer := self.mReadBuffer ++ l }) := by
  induction l generalizing self with
  | nil => simp [feedStdOut]
  | cons c rest ih =>
    obtain ⟨h1, h2⟩ := hl
    simp only [List.mem_cons, not_or] at h1 h2
    have hc := tryToReadStdOut_other self c h (Ne.symm h1.1) (Ne.symm h2.1)
    simp only [feedStdOut, hc]
    rw [ih { self with mReadBuffer := self.mReadBuffer ++ [c] } h ⟨h1.2, h2.2⟩]
    simp

theorem feedStdOut_pair (self : OscapScannerBase) (rule_id result tail : List Char)
    (h : self.mCapabilities.progressReporting = true) (hr : self.mReadingRuleID = true)
    (hb : self.mReadBuffer = []) (h1 : delimiterFree rule_id) (h2 : delimiterFree result) :
    feedStdOut self (rule_id ++ q ":" ++ result ++ q "\n" ++ tail) =
      (Signal.progressReport rule_id (q "processing") :: Signal.progressReport rule_id result ::
          (feedStdOut { self with mLastRuleID := rule_id } tail).1,
       (feedStdOut { self with mLastRuleID := rule_id } tail).2) := by
  have e : rule_id ++ q ":" ++ result ++ q "\n" ++ tail
      = rule_id ++ (':' :: (result ++ ('\n' :: tail))) := by simp [q]
  rw [e, feedStdOut_append, feedStdOut_plain self rule_id h h1]
  simp only [feedStdOut]
  rw [tryToReadStdOut_colon { self with mReadBuffer := self.mReadBuffer ++ rule_id } h]
  simp only [hr, hb, List.nil_append, if_true]
  rw [feedStdOut_append,
    feedStdOut_plain { self with mLastRuleID := rule_id, mReadBuffer := [],
                                 mReadingRuleID := false } result h h2]
  simp only [feedStdOut]
  rw [tryToReadStdOut_newline { self with mLastRuleID := rule_id, mReadBuffer := [] ++ result,
                                          mReadingRuleID := false } h]
  cases self
  simp_all

theorem feedStdOut_progressOutput (self : OscapScannerBase) (pairs : List (QString × QString))
    (h : self.mCapabilities.progressReporting = true) (hr : self.mReadingRuleID = true)
    (hb : self.mReadBuffer = []) (hw : wellFormedPairs pairs) :
    feedStdOut self (progressOutput pairs) =
      (progressSignals pairs,
       { self with mLastRuleID := lastRuleIdOf self.mLastRuleID pairs }) := by
  induction pairs generalizing self with
  | nil => simp [progressOutput, progressSignals, lastRuleIdOf, feedStdOut]
  | cons p rest ih =>
    obtain ⟨rule_id, result⟩ := p
    have hp := hw (rule_id, result) (List.mem_cons_self _ _)
    have hrest : wellFormedPairs rest := fun x hx => hw x (List.mem_cons_of_mem _ hx)
    simp only [progressOutput]
    rw [feedStdOut_pair self rule_id result _ h hr hb hp.1 hp.2]
    rw [ih { self with mLastRuleID := rule_id } h hr hb hrest]
    simp [progressSignals, lastRuleIdOf]

theorem progressSignals_no_warning (pairs : List (QString × QString)) (m : QString) :
    Signal.warningMessage m ∉ progressSignals pairs := by
  induction pairs with
  | nil => simp [progressSignals]
  | cons p rest ih =>
    obtain ⟨rule_id, result⟩ := p
    simp [progressSignals, ih]

set_option maxRecDepth 100000 in
theorem arg_readFailedFormat (a : QString) :
    arg readFailedFormat a =
      q ("Error: Could not read from stdout of running 'oscap' process. " ++
         "This is very strange and most likely a bug. " ++
         "Read buffer is '") ++ a ++ q "'." := by
  rfl

set_option maxRecDepth 100000 in
theorem arg_unexpectedColonFormat (a : QString) :
    arg unexpectedColonFormat a =
      q ("Error when parsing scan progress output from stdout of the 'oscap' process. " ++
         "':' encountered while not reading rule ID, newline and/or rule result are missing! " ++
         "Read buffer is '") ++ a ++ q "'." := by
  rfl

set_option maxRecDepth 100000 in
theorem arg_unexpectedNewlineFormat (a : QString) :
    arg unexpectedNewlineFormat a =
      q ("Error when parsing scan progress output from stdout of the 'oscap' process. " ++
         "Newline encountered while reading rule ID, rule result and/or ':' are missing! " ++
         "Read buffer is '") ++ a ++ q "'." := by
  rfl

theorem feedStdOut_no_progress (self : OscapScannerBase) (bytes : List Char)
    (h : self.mCapabilities.progressReporting = false) :
    feedStdOut self bytes = ([], self) := by
  induction bytes with
  | nil => rfl
  | cons c rest ih => simp [feedStdOut, tryToReadStdOut_no_progress self c h, ih]

theorem feedStdOut_two_colons (self : OscapScannerBase) (a b c : List Char)
    (h : self.mCapabilities.progressReporting = true) (hr : self.mReadingRuleID = true)
    (hb : self.mReadBuffer = []) (ha : delimiterFree a) (hb2 : delimiterFree b)
    (hc : delimiterFree c) :
    feedStdOut self (a ++ q ":" ++ b ++ q ":" ++ c ++ q "\n") =
      ([Signal.progressReport a (q "processing"),
        Signal.warningMessage (arg unexpectedColonFormat b),
        Signal.progressReport b c],
       { self with mLastRuleID := b }) := by
  have e : a ++ q ":" ++ b ++ q ":" ++ c ++ q "\n"
      = a ++ (':' :: (b ++ (':' :: (c ++ ['\n'])))) := by simp [q]
  rw [e, feedStdOut_append, feedStdOut_plain self a h ha]
  simp only [feedStdOut]
  rw [tryToReadStdOut_colon { self with mReadBuffer := self.mReadBuffer ++ a } h]
  simp only [hr, hb, List.nil_append, if_true]
  rw [feedStdOut_append,
    feedStdOut_plain { self with mLastRuleID := a, mReadBuffer := [],
                                 mReadingRuleID := false } b h hb2]
  simp only [feedStdOut]
  rw [tryToReadStdOut_colon { self with mLastRuleID := a, mReadBuffer := [] ++ b,
                                        mReadingRuleID := false } h]
  simp only [List.nil_append]
  rw [feedStdOut_append,
    feedStdOut_plain { self with mLastRuleID := b, mReadBuffer := [],
                                 mReadingRuleID := false } c h hc]
  simp only [feedStdOut]
  rw [tryToReadStdOut_newline { self with mLastRuleID := b, mReadBuffer := [] ++ c,
                                          mReadingRuleID := false } h]
  cases self
  simp_all

/-! ## Lemmas on the read loop -/

theorem tryToReadStdOut_noBytes (self : OscapScannerBase) :
    tryToReadStdOut self StdOutRead.noBytesAvailable = ⟨false, [], self⟩ := by
  simp [tryToReadStdOut]

theorem tryToReadStdOut_byte_ret (self : OscapScannerBase) (c : Char) :
    (tryToReadStdOut self (StdOutRead.byte c)).ret = true := by
  cases hp : self.mCapabilities.progressReporting with
  | false => rw [tryToReadStdOut_no_progress self c hp]
  | true =>
    by_cases h1 : c = ':'
    · subst h1; rw [tryToReadStdOut_colon self hp]
    · by_cases h2 : c = '\n'
      · subst h2; rw [tryToReadStdOut_newline self hp]
      · rw [tryToReadStdOut_other self c hp h1 h2]

theorem readStdOutLoop_eq (fuel : Nat) (self : OscapScannerBase) (pending : List Char)
    (h : pending.length < fuel) :
    readStdOutLoop fuel self pending =
      some ((feedStdOut self pending).1, (feedStdOut self pending).2, []) := by
  induction pending generalizing fuel self with
  | nil =>
    cases fuel with
    | zero => exact absurd h (Nat.lt_irrefl 0)
    | succ n => simp [readStdOutLoop, nextStdOutRead, tryToReadStdOut_noBytes, feedStdOut]
  | cons c rest ih =>
    cases fuel with
    | zero => exact absurd h (Nat.not_lt_zero _)
    | succ n =>
      have hn : rest.length < n := by simpa using h
      simp only [readStdOutLoop, nextStdOutRead, afterStdOutRead, tryToReadStdOut_byte_ret,
        if_true, feedStdOut]
      rw [ih n _ hn]

theorem feedChunks_eq (fuel : Nat) (self : OscapScannerBase) (chunks : List (List Char))
    (h : ∀ chunk ∈ chunks, chunk.length < fuel) :
    feedChunks fuel self [] chunks =
      some ((feedStdOut self chunks.flatten).1, (feedStdOut self chunks.flatten).2, []) := by
  induction chunks generalizing self with
  | nil => simp [feedChunks, feedStdOut]
  | cons chunk rest ih =>
    have h1 : chunk.length < fuel := h chunk (List.mem_cons_self _ _)
    have h2 : ∀ c ∈ rest, c.length < fuel := fun c hc => h c (List.mem_cons_of_mem _ hc)
    simp only [feedChunks, List.nil_append, List.flatten_cons]
    rw [readStdOutLoop_eq fuel self chunk h1]
    simp only
    rw [ih (feedStdOut self chunk).2 h2, feedStdOut_append]

/-! ## Lemmas on the error messages -/

set_option maxRecDepth 100000 in
theorem arg_baselineFormat (v : QString) :
    arg baselineFormat v =
      q ("oscap tool doesn't support basic features required for workbench. " ++
         "Please make sure you have openscap 0.8.0 or newer. " ++
         "oscap version was detected as '") ++ v ++ q "'." := by
  rfl

set_option maxRecDepth 100000 in
theorem arg_onlineRemediationFormat (v : QString) :
    arg onlineRemediationFormat v =
      q ("oscap tool doesn't support online remediation. " ++
         "Please make sure you have openscap 0.9.5 or newer if you want " ++
         "to use online remediation. " ++
         "oscap version was detected as '") ++ v ++ q "'." := by
  rfl

set_option maxRecDepth 100000 in
theorem arg_arfInputFormat (v : QString) :
    arg arfInputFormat v =
      q ("oscap tool doesn't support taking ARFs (result datastreams) as input. " ++
         "Please make sure you have openscap <NOT IMPLEMENTED YET> or newer if you want " ++
         "to use offline remediation. " ++
         "oscap version was detected as '") ++ v ++ q "'." := by
  rfl

set_option maxRecDepth 100000 in
theorem arg_sourceDatastreamsFormat (v : QString) :
    arg sourceDatastreamsFormat v =
      q ("oscap tool doesn't support source datastreams as input. " ++
         "Please make sure you have openscap 0.9.0 or newer if you want " ++
         "to use source datastreams. " ++
         "oscap version was detected as '") ++ v ++ q "'." := by
  rfl

set_option maxRecDepth 100000 in
theorem arg_tailoringFormat (v : QString) :
    arg tailoringFormat v =
      q ("oscap tool doesn't support XCCDF tailoring but the session uses tailoring. " ++
         "Please make sure you have openscap 0.9.12 or newer on the target machine if you " ++
         "want to use tailoring features of scap-workbench. " ++
         "oscap version was detected as '") ++ v ++ q "'." := by
  rfl

/-- Every prerequisite error message contains the version string. -/
theorem version_in_messages (v : QString) :
    v <:+: arg baselineFormat v ∧ v <:+: arg onlineRemediationFormat v
    ∧ v <:+: arg arfInputFormat v ∧ v <:+: arg sourceDatastreamsFormat v
    ∧ v <:+: arg tailoringFormat v := by
  rw [arg_baselineFormat, arg_onlineRemediationFormat, arg_arfInputFormat,
    arg_sourceDatastreamsFormat, arg_tailoringFormat]
  exact ⟨List.infix_append _ _ _, List.infix_append _ _ _, List.infix_append _ _ _,
    List.infix_append _ _ _, List.infix_append _ _ _⟩

/-! ## Lemmas on the argument builders -/

theorem buildEvaluationArgs_eq (self : OscapScannerBase)
    (inputFile tailoringFile resultFile reportFile arfFile : QString)
    (onlineRemediation : Bool) :
    buildEvaluationArgs self inputFile tailoringFile resultFile reportFile arfFile
        onlineRemediation =
      [q "xccdf", q "eval"]
      ++ (if self.mSession.isSDS = true ∧ self.mSession.getDatastreamID ≠ [] then
            [q "--datastream-id", self.mSession.getDatastreamID] else [])
      ++ (if self.mSession.isSDS = true ∧ self.mSession.getComponentID ≠ [] then
            [q "--xccdf-id", self.mSession.getComponentID] else [])
      ++ (if tailoringFile ≠ [] then [q "--tailoring-file", tailoringFile] else [])
      ++ (if self.mSession.getProfileID ≠ [] then
            [q "--profile", self.mSession.getProfileID] else [])
      ++ [q "--results", resultFile, q "--results-arf", arfFile, q "--report", reportFile]
      ++ (if self.mCapabilities.progressReporting = true then [q "--progress"] else [])
      ++ (if onlineRemediation = true ∧ self.mCapabilities.onlineRemediation = true then
            [q "--remediate"] else [])
      ++ [inputFile] := by
  obtain ⟨mode, ⟨sds, tailoring, dsId, compId, profId⟩,
    ⟨baseline, progress, online, sourceDs, arf, tailoringCap, version⟩,
    lastId, reading, buffer, cancel, results, report, arfData⟩ := self
  simp only [buildEvaluationArgs, List.nil_append, List.cons_append, List.append_assoc]
  cases sds <;> cases progress <;> cases online <;> cases onlineRemediation <;>
    cases dsId <;> cases compId <;> cases tailoringFile <;> cases profId <;> rfl

theorem buildOfflineRemediationArgs_eq (self : OscapScannerBase)
    (resultInputFile resultFile reportFile arfFile : QString) :
    buildOfflineRemediationArgs self resultInputFile resultFile reportFile arfFile =
      [q "xccdf", q "remediate", q "--results", resultFile, q "--results-arf", arfFile,
       q "--report", reportFile]
      ++ (if self.mCapabilities.progressReporting = true then [q "--progress"] else [])
      ++ [resultInputFile] := by
  cases hp : self.mCapabilities.progressReporting <;>
    simp [buildOfflineRemediationArgs, hp]

theorem checkPrerequisites_online (self : OscapScannerBase)
    (h : (checkPrerequisites self).ret = true)
    (hm : self.mScannerMode = ScannerMode.SM_SCAN_ONLINE_REMEDIATION) :
    self.mCapabilities.onlineRemediation = true := by
  obtain ⟨mode, session, ⟨baseline, progress, online, sourceDs, arf, tailoringCap, version⟩,
    lastId, reading, buffer, cancel, results, report, arfData⟩ := self
  simp only at hm
  subst hm
  cases baseline <;> cases online <;> simp_all [checkPrerequisites]

theorem not_flagToken (x : QString) (h : x ∉ flagTokens) :
    (x ≠ q "--datastream-id" ∧ x ≠ q "--xccdf-id" ∧ x ≠ q "--tailoring-file"
      ∧ x ≠ q "--profile" ∧ x ≠ q "--results" ∧ x ≠ q "--results-arf" ∧ x ≠ q "--report"
      ∧ x ≠ q "--progress" ∧ x ≠ q "--remediate")
    ∧ (q "--datastream-id" ≠ x ∧ q "--xccdf-id" ≠ x ∧ q "--tailoring-file" ≠ x
      ∧ q "--profile" ≠ x ∧ q "--results" ≠ x ∧ q "--results-arf" ≠ x ∧ q "--report" ≠ x
      ∧ q "--progress" ≠ x ∧ q "--remediate" ≠ x) := by
  simp only [flagTokens, List.mem_cons, List.mem_singleton, List.not_mem_nil, not_or,
    or_false] at h
  obtain ⟨a1, a2, a3, a4, a5, a6, a7, a8, a9⟩ := h
  exact ⟨⟨a1, a2, a3, a4, a5, a6, a7, a8, a9⟩,
    Ne.symm a1, Ne.symm a2, Ne.symm a3, Ne.symm a4, Ne.symm a5, Ne.symm a6, Ne.symm a7,
    Ne.symm a8, Ne.symm a9⟩

theorem closedFor_nil (flag value : QString) : closedFor flag value [] := by
  simp [closedFor, eachFollowedBy]

theorem closedFor_append (flag value : QString) (a b : QStringList)
    (ha : closedFor flag value a) (hb : closedFor flag value b) :
    closedFor flag value (a ++ b) := by
  obtain ⟨ha1, ha2⟩ := ha
  obtain ⟨hb1, hb2⟩ := hb
  constructor
  · induction a with
    | nil => simpa using hb1
    | cons x rest ih =>
      obtain ⟨hx, hrest⟩ := ha1
      cases rest with
      | nil =>
        have hxf : x ≠ flag := by simpa using ha2
        exact ⟨fun h => absurd h hxf, by simpa using hb1⟩
      | cons y rest2 =>
        refine ⟨fun h => by simpa using hx h, ?_⟩
        apply ih hrest
        simpa [List.getLast?_cons_cons] using ha2
  · cases b with
    | nil => simpa using ha2
    | cons y rest =>
      rw [List.getLast?_append]
      cases hl : (y :: rest).getLast? with
      | none => simp at hl
      | some z => rw [hl] at hb2; simpa using hb2

theorem closedFor_ite (flag value : QString) (c : Prop) [Decidable c] (a : QStringList)
    (ha : closedFor flag value a) : closedFor flag value (if c then a else []) := by
  split
  · exact ha
  · exact closedFor_nil flag value

theorem mem_ite_nil (x : QString) (c : Prop) [Decidable c] (a : QStringList) :
    x ∈ (if c then a else []) ↔ c ∧ x ∈ a := by
  split <;> simp [*]

/-! ## Lemmas on the decoder state and the stderr watcher -/

theorem tryToReadStdOut_sameDecoding (s t : OscapScannerBase) (c : Char)
    (h : sameDecoding s t) :
    (tryToReadStdOut s (StdOutRead.byte c)).signals
        = (tryToReadStdOut t (StdOutRead.byte c)).signals
    ∧ sameDecoding (tryToReadStdOut s (StdOutRead.byte c)).self
        (tryToReadStdOut t (StdOutRead.byte c)).self := by
  obtain ⟨hp, hb, hr, hl⟩ := h
  cases hps : s.mCapabilities.progressReporting with
  | false =>
    have hpt : t.mCapabilities.progressReporting = false := by rw [← hp, hps]
    rw [tryToReadStdOut_no_progress s c hps, tryToReadStdOut_no_progress t c hpt]
    exact ⟨rfl, hp, hb, hr, hl⟩
  | true =>
    have hpt : t.mCapabilities.progressReporting = true := by rw [← hp, hps]
    by_cases h1 : c = ':'
    · subst h1
      rw [tryToReadStdOut_colon s hps, tryToReadStdOut_colon t hpt]
      simp [sameDecoding, hps, hpt, hb, hr]
    · by_cases h2 : c = '\n'
      · subst h2
        rw [tryToReadStdOut_newline s hps, tryToReadStdOut_newline t hpt]
        cases hrs : s.mReadingRuleID with
        | false =>
          have hrt : t.mReadingRuleID = false := by rw [← hr, hrs]
          simp [sameDecoding, hps, hpt, hb, hrs, hrt, hl hrs]
        | true =>
          have hrt : t.mReadingRuleID = true := by rw [← hr, hrs]
          simp [sameDecoding, hps, hpt, hb, hrs, hrt]
      · rw [tryToReadStdOut_other s c hps h1 h2, tryToReadStdOut_other t c hpt h1 h2]
        exact ⟨rfl, hp, by simp [hb], hr, hl⟩

theorem feedStdOut_sameDecoding (s t : OscapScannerBase) (bytes : List Char)
    (h : sameDecoding s t) :
    (feedStdOut s bytes).1 = (feedStdOut t bytes).1
    ∧ sameDecoding (feedStdOut s bytes).2 (feedStdOut t bytes).2 := by
  induction bytes generalizing s t with
  | nil => exact ⟨rfl, h⟩
  | cons c rest ih =>
    obtain ⟨h1, h2⟩ := tryToReadStdOut_sameDecoding s t c h
    obtain ⟨h3, h4⟩ := ih _ _ h2
    simp only [feedStdOut]
    exact ⟨by rw [h1, h3], h4⟩

theorem feedStdOut_capabilities (self : OscapScannerBase) (bytes : List Char) :
    (feedStdOut self bytes).2.mCapabilities = self.mCapabilities
    ∧ (feedStdOut self bytes).2.mScannerMode = self.mScannerMode
    ∧ (feedStdOut self bytes).2.mSession = self.mSession := by
  induction bytes generalizing self with
  | nil => exact ⟨rfl, rfl, rfl⟩
  | cons c rest ih =>
    simp only [feedStdOut]
    obtain ⟨h1, h2, h3⟩ := ih (tryToReadStdOut self (StdOutRead.byte c)).self
    rw [h1, h2, h3]
    cases hp : self.mCapabilities.progressReporting with
    | false => rw [tryToReadStdOut_no_progress self c hp]; exact ⟨rfl, rfl, rfl⟩
    | true =>
      by_cases hc1 : c = ':'
      · subst hc1; rw [tryToReadStdOut_colon self hp]; exact ⟨rfl, rfl, rfl⟩
      · by_cases hc2 : c = '\n'
        · subst hc2; rw [tryToReadStdOut_newline self hp]; exact ⟨rfl, rfl, rfl⟩
        · rw [tryToReadStdOut_other self c hp hc1 hc2]; exact ⟨rfl, rfl, rfl⟩

set_option maxRecDepth 100000 in
theorem arg_stdErrFormat (a : QString) :
    arg stdErrFormat a =
      q "The 'oscap' process has written the following content to stderr:\n" ++ a := by
  have h : arg stdErrFormat a =
      q "The 'oscap' process has written the following content to stderr:\n" ++ (a ++ []) := by
    rfl
  rw [h, List.append_nil]

theorem readStdErrLines_eq (errorMessage : QString) (lines : List QString) :
    readStdErrLines errorMessage lines = errorMessage ++ lines.flatten := by
  induction lines generalizing errorMessage with
  | nil => simp [readStdErrLines]
  | cons line rest ih => simp [readStdErrLines, ih]

theorem afterLastDelimiter_concat (s : List Char) (c : Char) :
    afterLastDelimiter (s ++ [c]) =
      if isDelimiter c = true then [] else afterLastDelimiter s ++ [c] := by
  cases h : isDelimiter c <;> simp [afterLastDelimiter, List.takeWhile_cons, h]

theorem isDelimiter_iff (c : Char) : isDelimiter c = true ↔ c = ':' ∨ c = '\n' := by
  simp [isDelimiter]

theorem feedStdOut_concat (self : OscapScannerBase) (s : List Char) (c : Char) :
    feedStdOut self (s ++ [c]) =
      ((feedStdOut self s).1 ++ (tryToReadStdOut (feedStdOut self s).2 (StdOutRead.byte c)).signals,
       (tryToReadStdOut (feedStdOut self s).2 (StdOutRead.byte c)).self) := by
  rw [feedStdOut_append]
  simp [feedStdOut]

theorem delimiterFree_nil : delimiterFree [] := by decide

theorem delimiterFree_processing : delimiterFree (q "processing") := by decide

theorem decoder_invariant (mode : ScannerMode) (session : ScanningSession)
    (capabilities : OscapCapabilities) (hp : capabilities.progressReporting = true)
    (s : List Char) :
    (feedStdOut (OscapScannerBase.construct mode session capabilities) s).2.mReadBuffer
        = afterLastDelimiter s
    ∧ delimiterFree
        (feedStdOut (OscapScannerBase.construct mode session capabilities) s).2.mReadBuffer
    ∧ delimiterFree
        (feedStdOut (OscapScannerBase.construct mode session capabilities) s).2.mLastRuleID
    ∧ (∀ rule_id result, Signal.progressReport rule_id result ∈
          (feedStdOut (OscapScannerBase.construct mode session capabilities) s).1 →
        delimiterFree rule_id ∧ delimiterFree result) := by
  induction s using List.reverseRecOn with
  | nil =>
    refine ⟨rfl, delimiterFree_nil, delimiterFree_nil, ?_⟩
    intro r res h
    simp [feedStdOut] at h
  | append_singleton s c ih =>
    obtain ⟨ih1, ih2, ih3, ih4⟩ := ih
    have hcap : (feedStdOut (OscapScannerBase.construct mode session capabilities)
        s).2.mCapabilities.progressReporting = true := by
      rw [(feedStdOut_capabilities _ s).1]; exact hp
    rw [feedStdOut_concat, afterLastDelimiter_concat]
    by_cases h1 : c = ':'
    · subst h1
      rw [tryToReadStdOut_colon _ hcap]
      refine ⟨by simp [isDelimiter], delimiterFree_nil, ih2, ?_⟩
      intro r res h
      simp only [List.mem_append, List.mem_singleton] at h
      rcases h with h | h
      · exact ih4 r res h
      · split at h
        · simp only [Signal.progressReport.injEq] at h
          obtain ⟨hr, hres⟩ := h
          subst hr hres
          exact ⟨ih2, delimiterFree_processing⟩
        · simp at h
    · by_cases h2 : c = '\n'
      · subst h2
        rw [tryToReadStdOut_newline _ hcap]
        refine ⟨by simp [isDelimiter], delimiterFree_nil, ih3, ?_⟩
        intro r res h
        simp only [List.mem_append, List.mem_singleton] at h
        rcases h with h | h
        · exact ih4 r res h
        · split at h
          · simp at h
          · simp only [Signal.progressReport.injEq] at h
            obtain ⟨hr, hres⟩ := h
            subst hr hres
            exact ⟨ih3, ih2⟩
      · rw [tryToReadStdOut_other _ c hcap h1 h2]
        have hnd : isDelimiter c = false := by simp [isDelimiter, h1, h2]
        refine ⟨by simp [hnd, ih1], ?_, ih3, ?_⟩
        · obtain ⟨a, b⟩ := ih2
          constructor <;> simp only [List.mem_append, List.mem_singleton, not_or]
          · exact ⟨a, Ne.symm h1⟩
          · exact ⟨b, Ne.symm h2⟩
        · intro r res h
          simp only [List.append_nil] at h
          exact ih4 r res h

theorem feedStdOut_signal_count (self : OscapScannerBase) (s : List Char)
    (hp : self.mCapabilities.progressReporting = true) :
    (feedStdOut self s).1.length = s.countP isDelimiter := by
  induction s generalizing self with
  | nil => rfl
  | cons c rest ih =>
    have hcap : (tryToReadStdOut self (StdOutRead.byte c)).self.mCapabilities.progressReporting
        = true := by
      have h := (feedStdOut_capabilities self [c]).1
      simp only [feedStdOut] at h
      rw [h]; exact hp
    simp only [feedStdOut, List.length_append, List.countP_cons]
    rw [ih _ hcap]
    by_cases h1 : c = ':'
    · subst h1
      rw [tryToReadStdOut_colon self hp]
      simp +decide [Nat.add_comm]
    · by_cases h2 : c = '\n'
      · subst h2
        rw [tryToReadStdOut_newline self hp]
        simp +decide [Nat.add_comm]
      · rw [tryToReadStdOut_other self c hp h1 h2]
        simp [isDelimiter, h1, h2]

/-! ## The claims -/

/-- C1 (as amended): with progressReporting true, feeding a well-formed stream
(`ruleId ++ ":" ++ result ++ "\n"` per pair, no delimiter inside the strings)
to a freshly constructed scanner, one call per byte, emits for each pair, in
input order, the progress event (ruleId, "processing") followed by
(ruleId, result), emits no warning, and leaves the decoder reading a rule id
with an empty buffer. -/
theorem C1_wellformed_stream (mode : ScannerMode) (session : ScanningSession)
    (capabilities : OscapCapabilities) (pairs : List (QString × QString))
    (hp : capabilities.progressReporting = true) (hw : wellFormedPairs pairs) :
    (feedStdOut (OscapScannerBase.construct mode session capabilities)
        (progressOutput pairs)).1 = progressSignals pairs
    ∧ (∀ m, Signal.warningMessage m ∉
        (feedStdOut (OscapScannerBase.construct mode session capabilities)
          (progressOutput pairs)).1)
    ∧ (feedStdOut (OscapScannerBase.construct mode session capabilities)
        (progressOutput pairs)).2 =
      { OscapScannerBase.construct mode session capabilities with
        mLastRuleID := lastRuleIdOf [] pairs } := by
  have key := feedStdOut_progressOutput (OscapScannerBase.construct mode session capabilities)
    pairs hp rfl rfl hw
  rw [key]
  exact ⟨rfl, fun m => progressSignals_no_warning pairs m, rfl⟩

/-- C1, witness of the amended statement: "ruleA:pass\nruleB:fail\n" yields the
four events (ruleA, processing), (ruleA, pass), (ruleB, processing), (ruleB, fail). -/
theorem C1_wellformed_stream_witness :
    (fullCapabilities (q "1.0.0")).progressReporting = true
    ∧ wellFormedPairs [(q "ruleA", q "pass"), (q "ruleB", q "fail")]
    ∧ progressOutput [(q "ruleA", q "pass"), (q "ruleB", q "fail")]
        = q "ruleA:pass\nruleB:fail\n"
    ∧ (feedStdOut (OscapScannerBase.construct ScannerMode.SM_SCAN plainSession
          (fullCapabilities (q "1.0.0")))
        (progressOutput [(q "ruleA", q "pass"), (q "ruleB", q "fail")])).1
      = [Signal.progressReport (q "ruleA") (q "processing"),
         Signal.progressReport (q "ruleA") (q "pass"),
         Signal.progressReport (q "ruleB") (q "processing"),
         Signal.progressReport (q "ruleB") (q "fail")] :=
  ⟨by decide, by decide, by decide,
   (C1_wellformed_stream ScannerMode.SM_SCAN plainSession (fullCapabilities (q "1.0.0"))
      [(q "ruleA", q "pass"), (q "ruleB", q "fail")] (by decide) (by decide)).1⟩

/-- C1, counterexample to the claim as stated: for "ruleA:pass\nruleB:fail\n"
the emitted signals are not just the two events (ruleA, pass), (ruleB, fail). -/
theorem C1_counterexample :
    freshScanner.mCapabilities.progressReporting = true
    ∧ wellFormedPairs [(q "ruleA", q "pass"), (q "ruleB", q "fail")]
    ∧ (feedStdOut freshScanner
        (progressOutput [(q "ruleA", q "pass"), (q "ruleB", q "fail")])).1
      ≠ [Signal.progressReport (q "ruleA") (q "pass"),
         Signal.progressReport (q "ruleB") (q "fail")] := by
  decide

/-- C2: chunk invariance. However a byte sequence is split into chunks, running
the read loop (`tryToReadStdOut` until it returns false) on each chunk in turn
ends, with fuel above the longest chunk, and gives the same emitted signals,
the same final scanner and the same emptied process as running it on the whole
sequence in one chunk, from every starting state. This rests on the call made
at each chunk boundary: with no bytes available `tryToReadStdOut` returns
false, emits nothing and leaves the scanner unchanged, while every successful
read returns true. Decoding `a ++ b` is decoding `a`, then `b` from the state
reached, with the outputs concatenated; one byte per chunk and one single
chunk are instances. -/
theorem C2_chunk_invariance (self : OscapScannerBase) (chunks : List (List Char))
    (fuel fuelWhole : Nat) (hfuel : ∀ chunk ∈ chunks, chunk.length < fuel)
    (hwhole : chunks.flatten.length < fuelWhole) :
    feedChunks fuel self [] chunks = feedChunks fuelWhole self [] [chunks.flatten]
    ∧ feedChunks fuel self [] chunks =
        some ((feedStdOut self chunks.flatten).1, (feedStdOut self chunks.flatten).2, [])
    ∧ (tryToReadStdOut self StdOutRead.noBytesAvailable).ret = false
    ∧ (tryToReadStdOut self StdOutRead.noBytesAvailable).signals = []
    ∧ (tryToReadStdOut self StdOutRead.noBytesAvailable).self = self
    ∧ (∀ c : Char, (tryToReadStdOut self (StdOutRead.byte c)).ret = true)
    ∧ (∀ a b : List Char, a.length < fuel → b.length < fuel → (a ++ b).length < fuelWhole →
        ∃ signalsA selfA signalsB selfB,
          readStdOutLoop fuel self a = some (signalsA, selfA, [])
          ∧ readStdOutLoop fuel selfA b = some (signalsB, selfB, [])
          ∧ readStdOutLoop fuelWhole self (a ++ b) = some (signalsA ++ signalsB, selfB, []))
    ∧ (∀ s : List Char, s.length < fuelWhole →
        feedChunks 2 self [] (s.map fun c => [c]) = feedChunks fuelWhole self [] [s]) := by
  have hchunks := feedChunks_eq fuel self chunks hfuel
  have hone : ∀ (s : List Char), s.length < fuelWhole →
      feedChunks fuelWhole self [] [s] =
        some ((feedStdOut self s).1, (feedStdOut self s).2, []) := by
    intro s hs
    have h := feedChunks_eq fuelWhole self [s] (by simpa using hs)
    simpa using h
  refine ⟨?_, hchunks, ?_, ?_, ?_, tryToReadStdOut_byte_ret self, ?_, ?_⟩
  · rw [hchunks, hone _ hwhole]
  · rw [tryToReadStdOut_noBytes]
  · rw [tryToReadStdOut_noBytes]
  · rw [tryToReadStdOut_noBytes]
  · intro a b ha hb hab
    refine ⟨(feedStdOut self a).1, (feedStdOut self a).2,
      (feedStdOut (feedStdOut self a).2 b).1, (feedStdOut (feedStdOut self a).2 b).2,
      readStdOutLoop_eq fuel self a ha, readStdOutLoop_eq fuel _ b hb, ?_⟩
    rw [readStdOutLoop_eq fuelWhole self (a ++ b) hab, feedStdOut_append]
  · intro s hs
    rw [hone s hs]
    have e : ∀ l : List Char, (l.map fun c => [c]).flatten = l := by
      intro l
      induction l with
      | nil => rfl
      | cons c rest ih => simp [ih]
    have h := feedChunks_eq 2 self (s.map fun c => [c]) (by simp)
    rw [h, e]

/-- C2, witness: the chunks "rule", "A:", "pa", "ss\n" give the same result as
"ruleA:pass\n" in one chunk. -/
theorem C2_chunk_invariance_witness :
    (∀ chunk ∈ [q "rule", q "A:", q "pa", q "ss\n"], chunk.length < 5)
    ∧ [q "rule", q "A:", q "pa", q "ss\n"].flatten.length < 12
    ∧ [q "rule", q "A:", q "pa", q "ss\n"].flatten = q "ruleA:pass\n"
    ∧ feedChunks 5 freshScanner [] [q "rule", q "A:", q "pa", q "ss\n"]
        = feedChunks 12 freshScanner [] [[q "rule", q "A:", q "pa", q "ss\n"].flatten]
    ∧ feedChunks 12 freshScanner [] [q "ruleA:pass\n"]
        = some ([Signal.progressReport (q "ruleA") (q "processing"),
                 Signal.progressReport (q "ruleA") (q "pass")],
                { freshScanner with mLastRuleID := q "ruleA" }, []) :=
  ⟨by decide, by decide, by decide,
   (C2_chunk_invariance freshScanner [q "rule", q "A:", q "pa", q "ss\n"] 5 12
      (by decide) (by decide)).1,
   by decide⟩

/-- C3 (as amended): with progressReporting true, in ReadingRuleId with buffer B,
consuming ':' emits exactly one signal, the progress event (B, "processing"),
and no warning; it sets the last rule id to B, clears the buffer and moves to
ReadingResult. -/
theorem C3_colon_reading_rule_id (self : OscapScannerBase)
    (hp : self.mCapabilities.progressReporting = true) (hr : self.mReadingRuleID = true) :
    (tryToReadStdOut self (StdOutRead.byte ':')).ret = true
    ∧ (tryToReadStdOut self (StdOutRead.byte ':')).signals
        = [Signal.progressReport self.mReadBuffer (q "processing")]
    ∧ (tryToReadStdOut self (StdOutRead.byte ':')).self
        = { self with mLastRuleID := self.mReadBuffer, mReadBuffer := [],
                      mReadingRuleID := false } := by
  rw [tryToReadStdOut_colon self hp]
  simp [hr]

/-- C3, witness of the amended statement: reading "ruleA", then ':'. -/
theorem C3_colon_reading_rule_id_witness :
    readingRuleA.mCapabilities.progressReporting = true
    ∧ readingRuleA.mReadingRuleID = true
    ∧ (tryToReadStdOut readingRuleA (StdOutRead.byte ':')).signals
        = [Signal.progressReport (q "ruleA") (q "processing")] :=
  ⟨by decide, by decide, (C3_colon_reading_rule_id readingRuleA (by decide) (by decide)).2.1⟩

/-- C3, counterexample to the claim as stated: in ReadingRuleId with buffer
"ruleA", consuming ':' does emit a progress event. -/
theorem C3_counterexample :
    readingRuleA.mCapabilities.progressReporting = true
    ∧ readingRuleA.mReadingRuleID = true
    ∧ Signal.progressReport (q "ruleA") (q "processing") ∈
        (tryToReadStdOut readingRuleA (StdOutRead.byte ':')).signals
    ∧ (tryToReadStdOut readingRuleA (StdOutRead.byte ':')).signals ≠ [] := by
  decide

/-- C4: with progressReporting true, in ReadingResult with last rule id L and
buffer B, consuming a newline emits exactly one signal, the progress event
(L, B), and no warning; it clears the buffer and moves to ReadingRuleId,
leaving everything else as it was. -/
theorem C4_newline_reading_result (self : OscapScannerBase)
    (hp : self.mCapabilities.progressReporting = true) (hr : self.mReadingRuleID = false) :
    (tryToReadStdOut self (StdOutRead.byte '\n')).ret = true
    ∧ (tryToReadStdOut self (StdOutRead.byte '\n')).signals
        = [Signal.progressReport self.mLastRuleID self.mReadBuffer]
    ∧ (tryToReadStdOut self (StdOutRead.byte '\n')).self
        = { self with mReadBuffer := [], mReadingRuleID := true } := by
  rw [tryToReadStdOut_newline self hp]
  simp [hr]

/-- C4, witness: reading the result "pass" of "ruleA", then a newline. -/
theorem C4_newline_reading_result_witness :
    readingPass.mCapabilities.progressReporting = true
    ∧ readingPass.mReadingRuleID = false
    ∧ (tryToReadStdOut readingPass (StdOutRead.byte '\n')).signals
        = [Signal.progressReport (q "ruleA") (q "pass")] :=
  ⟨by decide, by decide, (C4_newline_reading_result readingPass (by decide) (by decide)).2.1⟩

/-- C5: protocol violations are non-fatal and keep the parsing phase. With
progressReporting true and buffer B, consuming ':' while in ReadingResult, or a
newline while in ReadingRuleId, emits exactly one signal, a warning whose text
contains B, clears the buffer and leaves mReadingRuleID at its former value.
In "::\n" the second ':' gives a warning, the decoder stays in ReadingResult
with an empty buffer, and the newline then emits the event ("", ""). -/
theorem C5_protocol_violation (self : OscapScannerBase)
    (hp : self.mCapabilities.progressReporting = true) :
    (self.mReadingRuleID = false →
      ∃ text, (tryToReadStdOut self (StdOutRead.byte ':')).signals
            = [Signal.warningMessage text]
        ∧ self.mReadBuffer <:+: text
        ∧ (tryToReadStdOut self (StdOutRead.byte ':')).ret = true
        ∧ (tryToReadStdOut self (StdOutRead.byte ':')).self.mReadBuffer = []
        ∧ (tryToReadStdOut self (StdOutRead.byte ':')).self.mReadingRuleID
            = self.mReadingRuleID)
    ∧ (self.mReadingRuleID = true →
      ∃ text, (tryToReadStdOut self (StdOutRead.byte '\n')).signals
            = [Signal.warningMessage text]
        ∧ self.mReadBuffer <:+: text
        ∧ (tryToReadStdOut self (StdOutRead.byte '\n')).ret = true
        ∧ (tryToReadStdOut self (StdOutRead.byte '\n')).self.mReadBuffer = []
        ∧ (tryToReadStdOut self (StdOutRead.byte '\n')).self.mReadingRuleID
            = self.mReadingRuleID)
    ∧ (∃ text, (feedStdOut (OscapScannerBase.construct self.mScannerMode self.mSession
            self.mCapabilities) (q "::\n")).1
          = [Signal.progressReport (q "") (q "processing"),
             Signal.warningMessage text,
             Signal.progressReport (q "") (q "")])
    ∧ (feedStdOut (OscapScannerBase.construct self.mScannerMode self.mSession
          self.mCapabilities) (q "::")).2.mReadingRuleID = false
    ∧ (feedStdOut (OscapScannerBase.construct self.mScannerMode self.mSession
          self.mCapabilities) (q "::")).2.mReadBuffer = [] := by
  refine ⟨?_, ?_, ?_, ?_, ?_⟩
  · intro hr
    rw [tryToReadStdOut_colon self hp]
    refine ⟨arg unexpectedColonFormat self.mReadBuffer, by simp [hr], ?_, rfl, rfl, hr.symm⟩
    rw [arg_unexpectedColonFormat]
    exact List.infix_append _ _ _
  · intro hr
    rw [tryToReadStdOut_newline self hp]
    refine ⟨arg unexpectedNewlineFormat self.mReadBuffer, by simp [hr], ?_, rfl, rfl, hr.symm⟩
    rw [arg_unexpectedNewlineFormat]
    exact List.infix_append _ _ _
  · refine ⟨arg unexpectedColonFormat [], ?_⟩
    have := feedStdOut_two_colons (OscapScannerBase.construct self.mScannerMode self.mSession
      self.mCapabilities) [] [] [] hp rfl rfl (by decide) (by decide) (by decide)
    simpa [q] using congrArg Prod.fst this
  · simp [feedStdOut, q, tryToReadStdOut_colon, hp, OscapScannerBase.construct]
  · simp [feedStdOut, q, tryToReadStdOut_colon, hp, OscapScannerBase.construct]

/-- C5, witness: a ':' while reading the result "pass" gives one warning and
leaves the decoder in ReadingResult with an empty buffer. -/
theorem C5_protocol_violation_witness :
    readingPass.mCapabilities.progressReporting = true
    ∧ readingPass.mReadingRuleID = false
    ∧ ∃ text, (tryToReadStdOut readingPass (StdOutRead.byte ':')).signals
            = [Signal.warningMessage text]
        ∧ readingPass.mReadBuffer <:+: text
        ∧ (tryToReadStdOut readingPass (StdOutRead.byte ':')).ret = true
        ∧ (tryToReadStdOut readingPass (StdOutRead.byte ':')).self.mReadBuffer = []
        ∧ (tryToReadStdOut readingPass (StdOutRead.byte ':')).self.mReadingRuleID
            = readingPass.mReadingRuleID :=
  ⟨by decide, by decide, (C5_protocol_violation readingPass (by decide)).1 (by decide)⟩

/-- C6 (as amended): with progressReporting true, consuming ':' while in
ReadingResult with buffer B replaces the last rule id by B; so for all
delimiter-free strings a, b, c, feeding "a:b:c\n" to a freshly constructed
scanner emits the event (a, "processing"), one warning whose text contains b,
and the event (b, c): the final progress event is (ruleId = b, result = c). -/
theorem C6_violating_colon_last_rule_id (mode : ScannerMode) (session : ScanningSession)
    (capabilities : OscapCapabilities) (hp : capabilities.progressReporting = true) :
    (∀ self : OscapScannerBase, self.mCapabilities.progressReporting = true →
        self.mReadingRuleID = false →
        (tryToReadStdOut self (StdOutRead.byte ':')).self.mLastRuleID = self.mReadBuffer)
    ∧ (∀ a b c : QString, delimiterFree a → delimiterFree b → delimiterFree c →
        (∃ text, b <:+: text ∧
          (feedStdOut (OscapScannerBase.construct mode session capabilities)
              (a ++ q ":" ++ b ++ q ":" ++ c ++ q "\n")).1
            = [Signal.progressReport a (q "processing"), Signal.warningMessage text,
               Signal.progressReport b c])
        ∧ (progressReports
            (feedStdOut (OscapScannerBase.construct mode session capabilities)
              (a ++ q ":" ++ b ++ q ":" ++ c ++ q "\n")).1).getLast? = some (b, c)) := by
  constructor
  · intro self h _
    rw [tryToReadStdOut_colon self h]
  · intro a b c ha hb hc
    rw [feedStdOut_two_colons (OscapScannerBase.construct mode session capabilities) a b c hp
      rfl rfl ha hb hc]
    refine ⟨⟨arg unexpectedColonFormat b, ?_, rfl⟩, ?_⟩
    · rw [arg_unexpectedColonFormat]
      exact List.infix_append _ _ _
    · simp [progressReports]

/-- C6, witness of the amended statement: "a:b:c\n" ends with the event (b, c). -/
theorem C6_violating_colon_last_rule_id_witness :
    (fullCapabilities (q "1.0.0")).progressReporting = true
    ∧ (progressReports
        (feedStdOut (OscapScannerBase.construct ScannerMode.SM_SCAN plainSession
            (fullCapabilities (q "1.0.0")))
          (q "a" ++ q ":" ++ q "b" ++ q ":" ++ q "c" ++ q "\n")).1).getLast?
      = some (q "b", q "c") :=
  ⟨by decide,
   ((C6_violating_colon_last_rule_id ScannerMode.SM_SCAN plainSession
      (fullCapabilities (q "1.0.0")) (by decide)).2 (q "a") (q "b") (q "c")
      (by decide) (by decide) (by decide)).2⟩

/-- C6, counterexample to the claim as stated: a ':' consumed in ReadingResult
changes the last rule id (from "ruleA" to the buffer "pass"), and the final
progress event of "a:b:c\n" is not (a, c). -/
theorem C6_counterexample :
    readingPass.mCapabilities.progressReporting = true
    ∧ readingPass.mReadingRuleID = false
    ∧ (tryToReadStdOut readingPass (StdOutRead.byte ':')).self.mLastRuleID
        ≠ readingPass.mLastRuleID
    ∧ delimiterFree (q "a") ∧ delimiterFree (q "b") ∧ delimiterFree (q "c")
    ∧ (progressReports (feedStdOut freshScanner (q "a:b:c\n")).1).getLast?
        ≠ some (q "a", q "c") := by
  decide

/-- C7: when progressReporting is false, every successful read, delimiter bytes
included, emits no signal and leaves the whole scanner (mReadingRuleID,
mReadBuffer and mLastRuleID in particular) unchanged, for one call and for any
byte sequence. -/
theorem C7_inert_without_progress (self : OscapScannerBase)
    (hp : self.mCapabilities.progressReporting = false) :
    (∀ c : Char, (tryToReadStdOut self (StdOutRead.byte c)).ret = true
        ∧ (tryToReadStdOut self (StdOutRead.byte c)).signals = []
        ∧ (tryToReadStdOut self (StdOutRead.byte c)).self = self)
    ∧ (∀ bytes : List Char, feedStdOut self bytes = ([], self)) := by
  constructor
  · intro c
    rw [tryToReadStdOut_no_progress self c hp]
    exact ⟨rfl, rfl, rfl⟩
  · intro bytes
    exact feedStdOut_no_progress self bytes hp

/-- C7, witness: a scanner without progress reporting fed "a:b\n:\n". -/
theorem C7_inert_without_progress_witness :
    silentToolScanner.mCapabilities.progressReporting = false
    ∧ feedStdOut silentToolScanner (q "a:b\n:\n") = ([], silentToolScanner) :=
  ⟨by decide, (C7_inert_without_progress silentToolScanner (by decide)).2 (q "a:b\n:\n")⟩

/-- C8: checkPrerequisites returns true if and only if baselineSupport holds, and
online remediation mode implies the onlineRemediation capability, and offline
remediation mode implies ARFInput, and a source datastream session implies
sourceDatastreams, and a session with tailoring implies tailoringSupport; when
it returns true it emits no signal, and in either case the scanner is
unchanged. -/
theorem C8_checkPrerequisites_iff (self : OscapScannerBase) :
    ((checkPrerequisites self).ret = true ↔
      (self.mCapabilities.baselineSupport = true
        ∧ (self.mScannerMode = ScannerMode.SM_SCAN_ONLINE_REMEDIATION →
            self.mCapabilities.onlineRemediation = true)
        ∧ (self.mScannerMode = ScannerMode.SM_OFFLINE_REMEDIATION →
            self.mCapabilities.ARFInput = true)
        ∧ (self.mSession.isSDS = true → self.mCapabilities.sourceDatastreams = true)
        ∧ (self.mSession.hasTailoring = true → self.mCapabilities.tailoringSupport = true)))
    ∧ ((checkPrerequisites self).ret = true → (checkPrerequisites self).signals = [])
    ∧ (checkPrerequisites self).self = self := by
  obtain ⟨mode, ⟨sds, tailoring, dsId, compId, profId⟩,
    ⟨baseline, progress, online, sourceDs, arf, tailoringCap, version⟩,
    lastId, reading, buffer, cancel, results, report, arfData⟩ := self
  cases mode <;> cases baseline <;> cases online <;> cases arf <;> cases sds <;>
    cases sourceDs <;> cases tailoring <;> cases tailoringCap <;>
    simp [checkPrerequisites]

/-- C8, witness: a freshly constructed scanner with full capabilities passes. -/
theorem C8_checkPrerequisites_iff_witness :
    (checkPrerequisites freshScanner).ret = true
    ∧ (checkPrerequisites freshScanner).signals = []
    ∧ (checkPrerequisites freshScanner).self = freshScanner :=
  ⟨by decide, (C8_checkPrerequisites_iff freshScanner).2.1 (by decide),
   (C8_checkPrerequisites_iff freshScanner).2.2⟩

/-- C9: when checkPrerequisites fails it emits exactly one signal, an error
message that contains the version string: the message of the first failing
check in the order baseline, online remediation, ARF input, source
datastreams, tailoring. With baselineSupport false it is always the baseline
message. A tailoring session against capabilities with every flag true except
tailoringSupport is rejected with the tailoring message containing the version. -/
theorem C9_first_failure_reported (self : OscapScannerBase) :
    ((checkPrerequisites self).ret = false →
      ∃ text, (checkPrerequisites self).signals = [Signal.errorMessage text]
        ∧ self.mCapabilities.getOpenSCAPVersion <:+: text)
    ∧ (self.mCapabilities.baselineSupport = false →
        (checkPrerequisites self).ret = false
        ∧ (checkPrerequisites self).signals =
          [Signal.errorMessage (arg baselineFormat self.mCapabilities.getOpenSCAPVersion)])
    ∧ (self.mCapabilities.baselineSupport = true →
        self.mScannerMode = ScannerMode.SM_SCAN_ONLINE_REMEDIATION →
        self.mCapabilities.onlineRemediation = false →
        (checkPrerequisites self).ret = false
        ∧ (checkPrerequisites self).signals =
          [Signal.errorMessage
            (arg onlineRemediationFormat self.mCapabilities.getOpenSCAPVersion)])
    ∧ (self.mCapabilities.baselineSupport = true →
        self.mScannerMode = ScannerMode.SM_OFFLINE_REMEDIATION →
        self.mCapabilities.ARFInput = false →
        (checkPrerequisites self).ret = false
        ∧ (checkPrerequisites self).signals =
          [Signal.errorMessage (arg arfInputFormat self.mCapabilities.getOpenSCAPVersion)])
    ∧ (self.mCapabilities.baselineSupport = true →
        (self.mScannerMode = ScannerMode.SM_SCAN_ONLINE_REMEDIATION →
          self.mCapabilities.onlineRemediation = true) →
        (self.mScannerMode = ScannerMode.SM_OFFLINE_REMEDIATION →
          self.mCapabilities.ARFInput = true) →
        self.mSession.isSDS = true → self.mCapabilities.sourceDatastreams = false →
        (checkPrerequisites self).ret = false
        ∧ (checkPrerequisites self).signals =
          [Signal.errorMessage
            (arg sourceDatastreamsFormat self.mCapabilities.getOpenSCAPVersion)])
    ∧ (self.mCapabilities.baselineSupport = true →
        (self.mScannerMode = ScannerMode.SM_SCAN_ONLINE_REMEDIATION →
          self.mCapabilities.onlineRemediation = true) →
        (self.mScannerMode = ScannerMode.SM_OFFLINE_REMEDIATION →
          self.mCapabilities.ARFInput = true) →
        (self.mSession.isSDS = true → self.mCapabilities.sourceDatastreams = true) →
        self.mSession.hasTailoring = true → self.mCapabilities.tailoringSupport = false →
        (checkPrerequisites self).ret = false
        ∧ (checkPrerequisites self).signals =
          [Signal.errorMessage (arg tailoringFormat self.mCapabilities.getOpenSCAPVersion)])
    ∧ (self.mCapabilities.getOpenSCAPVersion
          <:+: arg baselineFormat self.mCapabilities.getOpenSCAPVersion
        ∧ self.mCapabilities.getOpenSCAPVersion
          <:+: arg onlineRemediationFormat self.mCapabilities.getOpenSCAPVersion
        ∧ self.mCapabilities.getOpenSCAPVersion
          <:+: arg arfInputFormat self.mCapabilities.getOpenSCAPVersion
        ∧ self.mCapabilities.getOpenSCAPVersion
          <:+: arg sourceDatastreamsFormat self.mCapabilities.getOpenSCAPVersion
        ∧ self.mCapabilities.getOpenSCAPVersion
          <:+: arg tailoringFormat self.mCapabilities.getOpenSCAPVersion)
    ∧ (checkPrerequisites (OscapScannerBase.construct self.mScannerMode tailoredSession
          (noTailoringCapabilities self.mCapabilities.getOpenSCAPVersion))).ret = false
    ∧ (checkPrerequisites (OscapScannerBase.construct self.mScannerMode tailoredSession
          (noTailoringCapabilities self.mCapabilities.getOpenSCAPVersion))).signals =
        [Signal.errorMessage (arg tailoringFormat self.mCapabilities.getOpenSCAPVersion)] := by
  have hv := version_in_messages self.mCapabilities.getOpenSCAPVersion
  obtain ⟨mode, ⟨sds, tailoring, dsId, compId, profId⟩,
    ⟨baseline, progress, online, sourceDs, arf, tailoringCap, version⟩,
    lastId, reading, buffer, cancel, results, report, arfData⟩ := self
  simp only at hv
  obtain ⟨hv1, hv2, hv3, hv4, hv5⟩ := hv
  refine ⟨?_, ?_, ?_, ?_, ?_, ?_, ⟨hv1, hv2, hv3, hv4, hv5⟩, ?_, ?_⟩
  · cases mode <;> cases baseline <;> cases online <;> cases arf <;> cases sds <;>
      cases sourceDs <;> cases tailoring <;> cases tailoringCap <;>
      simp [checkPrerequisites, hv1, hv2, hv3, hv4, hv5]
  · intro h; simp only at h; subst h; simp [checkPrerequisites]
  · intro h1 h2 h3; simp only at h1 h2 h3; subst h1 h2 h3; simp [checkPrerequisites]
  · intro h1 h2 h3; simp only at h1 h2 h3; subst h1 h2 h3; simp [checkPrerequisites]
  · intro h1 h2 h3 h4 h5; simp only at h1 h2 h3 h4 h5; subst h1 h4 h5
    cases mode <;> simp_all [checkPrerequisites]
  · intro h1 h2 h3 h4 h5 h6; simp only at h1 h2 h3 h4 h5 h6; subst h1 h5 h6
    cases mode <;> cases sds <;> simp_all [checkPrerequisites]
  · cases mode <;>
      simp [checkPrerequisites, OscapScannerBase.construct, tailoredSession, plainSession,
        noTailoringCapabilities, fullCapabilities]
  · cases mode <;>
      simp [checkPrerequisites, OscapScannerBase.construct, tailoredSession, plainSession,
        noTailoringCapabilities, fullCapabilities]

/-- C9, witness: a tailoring session against version "0.9.11" without tailoring
support is rejected with exactly one error message, which contains "0.9.11". -/
theorem C9_first_failure_reported_witness :
    (checkPrerequisites (OscapScannerBase.construct ScannerMode.SM_SCAN tailoredSession
        (noTailoringCapabilities (q "0.9.11")))).ret = false
    ∧ ∃ text, (checkPrerequisites (OscapScannerBase.construct ScannerMode.SM_SCAN
            tailoredSession (noTailoringCapabilities (q "0.9.11")))).signals
          = [Signal.errorMessage text]
        ∧ q "0.9.11" <:+: text :=
  ⟨by decide,
   (C9_first_failure_reported (OscapScannerBase.construct ScannerMode.SM_SCAN tailoredSession
      (noTailoringCapabilities (q "0.9.11")))).1 (by decide)⟩

/-- C10: buildEvaluationArgs returns exactly "xccdf", "eval", then the
datastream id pair (source datastream and non-empty id), the component id pair
(source datastream and non-empty id), the tailoring file pair (non-empty), the
profile pair (non-empty), the results, results-arf and report pairs, then
"--progress" if progressReporting, then "--remediate" if online remediation is
requested and supported, then the input file, in that order; for a session that
is not a source datastream the datastream and component ids are ignored. -/
theorem C10_buildEvaluationArgs_exact (self : OscapScannerBase)
    (inputFile tailoringFile resultFile reportFile arfFile : QString)
    (onlineRemediation : Bool) :
    buildEvaluationArgs self inputFile tailoringFile resultFile reportFile arfFile
        onlineRemediation =
      [q "xccdf", q "eval"]
      ++ (if self.mSession.isSDS = true ∧ self.mSession.getDatastreamID ≠ [] then
            [q "--datastream-id", self.mSession.getDatastreamID] else [])
      ++ (if self.mSession.isSDS = true ∧ self.mSession.getComponentID ≠ [] then
            [q "--xccdf-id", self.mSession.getComponentID] else [])
      ++ (if tailoringFile ≠ [] then [q "--tailoring-file", tailoringFile] else [])
      ++ (if self.mSession.getProfileID ≠ [] then
            [q "--profile", self.mSession.getProfileID] else [])
      ++ [q "--results", resultFile, q "--results-arf", arfFile, q "--report", reportFile]
      ++ (if self.mCapabilities.progressReporting = true then [q "--progress"] else [])
      ++ (if onlineRemediation = true ∧ self.mCapabilities.onlineRemediation = true then
            [q "--remediate"] else [])
      ++ [inputFile]
    ∧ (self.mSession.isSDS = false → ∀ datastreamId componentId : QString,
        buildEvaluationArgs
            { self with mSession := { self.mSession with getDatastreamID := datastreamId,
                                                         getComponentID := componentId } }
            inputFile tailoringFile resultFile reportFile arfFile onlineRemediation
          = buildEvaluationArgs self inputFile tailoringFile resultFile reportFile arfFile
              onlineRemediation) := by
  obtain ⟨mode, ⟨sds, tailoring, dsId, compId, profId⟩,
    ⟨baseline, progress, online, sourceDs, arf, tailoringCap, version⟩,
    lastId, reading, buffer, cancel, results, report, arfData⟩ := self
  constructor
  · simp only [buildEvaluationArgs, List.nil_append, List.cons_append, List.append_assoc]
    cases sds <;> cases progress <;> cases online <;> cases onlineRemediation <;>
      cases dsId <;> cases compId <;> cases tailoringFile <;> cases profId <;> rfl
  · intro h datastreamId componentId
    simp only at h
    subst h
    simp [buildEvaluationArgs]

/-- C10, witness: source datastream "ds1", empty component id, no tailoring,
profile "p1", progress supported, remediation requested but not supported. -/
theorem C10_buildEvaluationArgs_exact_witness :
    buildEvaluationArgs datastreamScanner (q "input.xml") (q "") (q "results.xml")
        (q "report.html") (q "arf.xml") true =
      [q "xccdf", q "eval", q "--datastream-id", q "ds1", q "--profile", q "p1",
       q "--results", q "results.xml", q "--results-arf", q "arf.xml",
       q "--report", q "report.html", q "--progress", q "input.xml"] :=
  (C10_buildEvaluationArgs_exact datastreamScanner (q "input.xml") (q "") (q "results.xml")
    (q "report.html") (q "arf.xml") true).1.trans (by decide)

/-- C11: buildOfflineRemediationArgs returns exactly "xccdf", "remediate", the
results, results-arf and report pairs, then "--progress" if progressReporting,
then the result input file; its length is 10 with progressReporting and 9
without; and a remediation, profile, tailoring or datastream flag occurs in it
only as one of the four strings the caller supplied. -/
theorem C11_buildOfflineRemediationArgs_exact (self : OscapScannerBase)
    (resultInputFile resultFile reportFile arfFile : QString) :
    buildOfflineRemediationArgs self resultInputFile resultFile reportFile arfFile =
      [q "xccdf", q "remediate", q "--results", resultFile, q "--results-arf", arfFile,
       q "--report", reportFile]
      ++ (if self.mCapabilities.progressReporting = true then [q "--progress"] else [])
      ++ [resultInputFile]
    ∧ (buildOfflineRemediationArgs self resultInputFile resultFile reportFile arfFile).length =
        (if self.mCapabilities.progressReporting = true then 10 else 9)
    ∧ (∀ flag ∈ evaluationOnlyFlags,
        flag ∈ buildOfflineRemediationArgs self resultInputFile resultFile reportFile arfFile →
        flag = resultFile ∨ flag = arfFile ∨ flag = reportFile ∨ flag = resultInputFile) := by
  have e : buildOfflineRemediationArgs self resultInputFile resultFile reportFile arfFile =
      [q "xccdf", q "remediate", q "--results", resultFile, q "--results-arf", arfFile,
       q "--report", reportFile]
      ++ (if self.mCapabilities.progressReporting = true then [q "--progress"] else [])
      ++ [resultInputFile] := by
    cases hp : self.mCapabilities.progressReporting <;>
      simp [buildOfflineRemediationArgs, hp]
  refine ⟨e, ?_, ?_⟩
  · rw [e]
    cases hp : self.mCapabilities.progressReporting <;> simp
  · intro flag hflag hmem
    rw [e] at hmem
    simp only [evaluationOnlyFlags, List.mem_cons, List.mem_singleton, List.not_mem_nil,
      or_false] at hflag
    cases hp : self.mCapabilities.progressReporting <;>
      rcases hflag with h | h | h | h | h <;> subst h <;>
      simp +decide [hp] at hmem <;> tauto

/-- C11, witness: a scanner whose tool reports progress, with plain file names. -/
theorem C11_buildOfflineRemediationArgs_exact_witness :
    buildOfflineRemediationArgs offlineScanner (q "arf-in.xml") (q "results.xml")
        (q "report.html") (q "arf.xml") =
      [q "xccdf", q "remediate", q "--results", q "results.xml", q "--results-arf",
       q "arf.xml", q "--report", q "report.html", q "--progress", q "arf-in.xml"]
    ∧ (buildOfflineRemediationArgs offlineScanner (q "arf-in.xml") (q "results.xml")
        (q "report.html") (q "arf.xml")).length = 10 :=
  ⟨(C11_buildOfflineRemediationArgs_exact offlineScanner (q "arf-in.xml") (q "results.xml")
      (q "report.html") (q "arf.xml")).1.trans (by decide),
   (C11_buildOfflineRemediationArgs_exact offlineScanner (q "arf-in.xml") (q "results.xml")
      (q "report.html") (q "arf.xml")).2.1.trans (by decide)⟩

/-- C12: for every scanner and all strings, empty ones included, the list
returned by buildEvaluationArgs is some list followed by inputFile alone, so its
last element is inputFile; likewise the list returned by
buildOfflineRemediationArgs ends with resultInputFile. Nothing is placed after
the input path. -/
theorem C12_input_path_last (self : OscapScannerBase)
    (inputFile tailoringFile resultFile reportFile arfFile resultInputFile : QString)
    (onlineRemediation : Bool) :
    (∃ front, buildEvaluationArgs self inputFile tailoringFile resultFile reportFile arfFile
        onlineRemediation = front ++ [inputFile])
    ∧ (buildEvaluationArgs self inputFile tailoringFile resultFile reportFile arfFile
        onlineRemediation).getLast? = some inputFile
    ∧ (∃ front, buildOfflineRemediationArgs self resultInputFile resultFile reportFile arfFile
        = front ++ [resultInputFile])
    ∧ (buildOfflineRemediationArgs self resultInputFile resultFile reportFile
        arfFile).getLast? = some resultInputFile := by
  rw [buildEvaluationArgs_eq, buildOfflineRemediationArgs_eq]
  exact ⟨⟨_, rfl⟩, List.getLast?_concat _, ⟨_, rfl⟩, List.getLast?_concat _⟩

/-- C13: when none of the caller-supplied strings (datastream id, component id,
tailoring file, profile id, result, ARF, report and input paths) is a flag
token, each optional flag occurs in the result of buildEvaluationArgs exactly
when its condition holds ("--datastream-id": source datastream and non-empty
id; "--xccdf-id": source datastream and non-empty component id;
"--tailoring-file": non-empty tailoring file; "--profile": non-empty profile
id; "--progress": progressReporting; "--remediate": requested and supported),
and every occurrence of a value-taking flag is immediately followed by its
value. -/
theorem C13_optional_flags (self : OscapScannerBase)
    (inputFile tailoringFile resultFile reportFile arfFile : QString)
    (onlineRemediation : Bool)
    (h1 : self.mSession.getDatastreamID ∉ flagTokens)
    (h2 : self.mSession.getComponentID ∉ flagTokens)
    (h3 : tailoringFile ∉ flagTokens) (h4 : self.mSession.getProfileID ∉ flagTokens)
    (h5 : resultFile ∉ flagTokens) (h6 : arfFile ∉ flagTokens)
    (h7 : reportFile ∉ flagTokens) (h8 : inputFile ∉ flagTokens) :
    (q "--datastream-id" ∈ buildEvaluationArgs self inputFile tailoringFile resultFile
        reportFile arfFile onlineRemediation ↔
      self.mSession.isSDS = true ∧ self.mSession.getDatastreamID ≠ [])
    ∧ (q "--xccdf-id" ∈ buildEvaluationArgs self inputFile tailoringFile resultFile
        reportFile arfFile onlineRemediation ↔
      self.mSession.isSDS = true ∧ self.mSession.getComponentID ≠ [])
    ∧ (q "--tailoring-file" ∈ buildEvaluationArgs self inputFile tailoringFile resultFile
        reportFile arfFile onlineRemediation ↔ tailoringFile ≠ [])
    ∧ (q "--profile" ∈ buildEvaluationArgs self inputFile tailoringFile resultFile
        reportFile arfFile onlineRemediation ↔ self.mSession.getProfileID ≠ [])
    ∧ (q "--progress" ∈ buildEvaluationArgs self inputFile tailoringFile resultFile
        reportFile arfFile onlineRemediation ↔ self.mCapabilities.progressReporting = true)
    ∧ (q "--remediate" ∈ buildEvaluationArgs self inputFile tailoringFile resultFile
        reportFile arfFile onlineRemediation ↔
      onlineRemediation = true ∧ self.mCapabilities.onlineRemediation = true)
    ∧ eachFollowedBy (q "--datastream-id") self.mSession.getDatastreamID
        (buildEvaluationArgs self inputFile tailoringFile resultFile reportFile arfFile
          onlineRemediation)
    ∧ eachFollowedBy (q "--xccdf-id") self.mSession.getComponentID
        (buildEvaluationArgs self inputFile tailoringFile resultFile reportFile arfFile
          onlineRemediation)
    ∧ eachFollowedBy (q "--tailoring-file") tailoringFile
        (buildEvaluationArgs self inputFile tailoringFile resultFile reportFile arfFile
          onlineRemediation)
    ∧ eachFollowedBy (q "--profile") self.mSession.getProfileID
        (buildEvaluationArgs self inputFile tailoringFile resultFile reportFile arfFile
          onlineRemediation)
    ∧ eachFollowedBy (q "--results") resultFile
        (buildEvaluationArgs self inputFile tailoringFile resultFile reportFile arfFile
          onlineRemediation)
    ∧ eachFollowedBy (q "--results-arf") arfFile
        (buildEvaluationArgs self inputFile tailoringFile resultFile reportFile arfFile
          onlineRemediation)
    ∧ eachFollowedBy (q "--report") reportFile
        (buildEvaluationArgs self inputFile tailoringFile resultFile reportFile arfFile
          onlineRemediation) := by
  rw [buildEvaluationArgs_eq]
  obtain ⟨mode, ⟨sds, tailoring, dsId, compId, profId⟩,
    ⟨baseline, progress, online, sourceDs, arf, tailoringCap, version⟩,
    lastId, reading, buffer, cancel, results, report, arfData⟩ := self
  simp only at h1 h2 h4 ⊢
  obtain ⟨⟨a1, a2, a3, a4, a5, a6, a7, a8, a9⟩, b1, b2, b3, b4, b5, b6, b7, b8, b9⟩ :=
    not_flagToken dsId h1
  obtain ⟨⟨c1, c2, c3, c4, c5, c6, c7, c8, c9⟩, d1, d2, d3, d4, d5, d6, d7, d8, d9⟩ :=
    not_flagToken compId h2
  obtain ⟨⟨e1, e2, e3, e4, e5, e6, e7, e8, e9⟩, f1, f2, f3, f4, f5, f6, f7, f8, f9⟩ :=
    not_flagToken tailoringFile h3
  obtain ⟨⟨g1, g2, g3, g4, g5, g6, g7, g8, g9⟩, i1, i2, i3, i4, i5, i6, i7, i8, i9⟩ :=
    not_flagToken profId h4
  obtain ⟨⟨j1, j2, j3, j4, j5, j6, j7, j8, j9⟩, k1, k2, k3, k4, k5, k6, k7, k8, k9⟩ :=
    not_flagToken resultFile h5
  obtain ⟨⟨l1, l2, l3, l4, l5, l6, l7, l8, l9⟩, m1, m2, m3, m4, m5, m6, m7, m8, m9⟩ :=
    not_flagToken arfFile h6
  obtain ⟨⟨n1, n2, n3, n4, n5, n6, n7, n8, n9⟩, o1, o2, o3, o4, o5, o6, o7, o8, o9⟩ :=
    not_flagToken reportFile h7
  obtain ⟨⟨p1, p2, p3, p4, p5, p6, p7, p8, p9⟩, r1, r2, r3, r4, r5, r6, r7, r8, r9⟩ :=
    not_flagToken inputFile h8
  clear h1 h2 h3 h4 h5 h6 h7 h8
  have closed : ∀ flag value : QString,
      closedFor flag value [q "xccdf", q "eval"] →
      closedFor flag value [q "--datastream-id", dsId] →
      closedFor flag value [q "--xccdf-id", compId] →
      closedFor flag value [q "--tailoring-file", tailoringFile] →
      closedFor flag value [q "--profile", profId] →
      closedFor flag value
        [q "--results", resultFile, q "--results-arf", arfFile, q "--report", reportFile] →
      closedFor flag value [q "--progress"] →
      closedFor flag value [q "--remediate"] →
      closedFor flag value [inputFile] →
      eachFollowedBy flag value
        ([q "xccdf", q "eval"]
        ++ (if sds = true ∧ dsId ≠ [] then [q "--datastream-id", dsId] else [])
        ++ (if sds = true ∧ compId ≠ [] then [q "--xccdf-id", compId] else [])
        ++ (if tailoringFile ≠ [] then [q "--tailoring-file", tailoringFile] else [])
        ++ (if profId ≠ [] then [q "--profile", profId] else [])
        ++ [q "--results", resultFile, q "--results-arf", arfFile, q "--report", reportFile]
        ++ (if progress = true then [q "--progress"] else [])
        ++ (if onlineRemediation = true ∧ online = true then [q "--remediate"] else [])
        ++ [inputFile]) := by
    intro flag value s0 s1 s2 s3 s4 s5 s6 s7 s8
    exact (closedFor_append _ _ _ _ (closedFor_append _ _ _ _ (closedFor_append _ _ _ _
      (closedFor_append _ _ _ _ (closedFor_append _ _ _ _ (closedFor_append _ _ _ _
      (closedFor_append _ _ _ _ (closedFor_append _ _ _ _ s0 (closedFor_ite _ _ _ _ s1))
      (closedFor_ite _ _ _ _ s2)) (closedFor_ite _ _ _ _ s3)) (closedFor_ite _ _ _ _ s4)) s5)
      (closedFor_ite _ _ _ _ s6)) (closedFor_ite _ _ _ _ s7)) s8).1
  refine ⟨?_, ?_, ?_, ?_, ?_, ?_, ?_, ?_, ?_, ?_, ?_, ?_, ?_⟩
  iterate 6
    simp only [List.mem_append, mem_ite_nil, List.mem_cons, List.mem_singleton,
      List.not_mem_nil, or_false]
    simp +decide [*]
  all_goals
    apply closed <;> simp +decide [closedFor, eachFollowedBy, *]

/-- C13, witness: source datastream "ds1", empty component id, no tailoring,
profile "p1", progress supported, remediation requested but not supported:
"--datastream-id ds1", no "--xccdf-id", "--profile p1", "--progress", no
"--remediate". -/
theorem C13_optional_flags_witness :
    (datastreamScanner.mSession.getDatastreamID ∉ flagTokens
      ∧ datastreamScanner.mSession.getComponentID ∉ flagTokens
      ∧ q "" ∉ flagTokens ∧ datastreamScanner.mSession.getProfileID ∉ flagTokens
      ∧ q "results.xml" ∉ flagTokens ∧ q "arf.xml" ∉ flagTokens
      ∧ q "report.html" ∉ flagTokens ∧ q "input.xml" ∉ flagTokens)
    ∧ (q "--datastream-id" ∈ buildEvaluationArgs datastreamScanner (q "input.xml") (q "")
        (q "results.xml") (q "report.html") (q "arf.xml") true)
    ∧ (q "--xccdf-id" ∉ buildEvaluationArgs datastreamScanner (q "input.xml") (q "")
        (q "results.xml") (q "report.html") (q "arf.xml") true)
    ∧ (q "--profile" ∈ buildEvaluationArgs datastreamScanner (q "input.xml") (q "")
        (q "results.xml") (q "report.html") (q "arf.xml") true)
    ∧ (q "--progress" ∈ buildEvaluationArgs datastreamScanner (q "input.xml") (q "")
        (q "results.xml") (q "report.html") (q "arf.xml") true)
    ∧ (q "--remediate" ∉ buildEvaluationArgs datastreamScanner (q "input.xml") (q "")
        (q "results.xml") (q "report.html") (q "arf.xml") true)
    ∧ eachFollowedBy (q "--datastream-id") (q "ds1")
        (buildEvaluationArgs datastreamScanner (q "input.xml") (q "") (q "results.xml")
          (q "report.html") (q "arf.xml") true)
    ∧ eachFollowedBy (q "--profile") (q "p1")
        (buildEvaluationArgs datastreamScanner (q "input.xml") (q "") (q "results.xml")
          (q "report.html") (q "arf.xml") true) :=
  have h := C13_optional_flags datastreamScanner (q "input.xml") (q "") (q "results.xml")
    (q "report.html") (q "arf.xml") true (by decide) (by decide) (by decide) (by decide)
    (by decide) (by decide) (by decide) (by decide)
  ⟨by decide, h.1.mpr (by decide), fun hm => absurd (h.2.1.mp hm) (by decide),
   h.2.2.2.1.mpr (by decide), h.2.2.2.2.1.mpr (by decide),
   fun hm => absurd (h.2.2.2.2.2.1.mp hm) (by decide),
   h.2.2.2.2.2.2.1, h.2.2.2.2.2.2.2.2.2.1⟩

/-- C14: if checkPrerequisites returns true for a scanner in online remediation
mode, then buildEvaluationArgs called with onlineRemediation = true returns a
list that ends with "--remediate" directly followed by the input file. -/
theorem C14_remediate_after_gate (self : OscapScannerBase)
    (inputFile tailoringFile resultFile reportFile arfFile : QString)
    (hgate : (checkPrerequisites self).ret = true)
    (hmode : self.mScannerMode = ScannerMode.SM_SCAN_ONLINE_REMEDIATION) :
    (∃ front, buildEvaluationArgs self inputFile tailoringFile resultFile reportFile arfFile
        true = front ++ [q "--remediate", inputFile])
    ∧ (buildEvaluationArgs self inputFile tailoringFile resultFile reportFile arfFile
        true).dropLast.getLast? = some (q "--remediate") := by
  have hcap := checkPrerequisites_online self hgate hmode
  have e : ∃ front, buildEvaluationArgs self inputFile tailoringFile resultFile reportFile
      arfFile true = front ++ [q "--remediate", inputFile] := by
    rw [buildEvaluationArgs_eq]
    simp only [hcap, and_self, if_true]
    exact ⟨_, by rw [List.append_assoc]; rfl⟩
  refine ⟨e, ?_⟩
  obtain ⟨front, hfront⟩ := e
  rw [hfront]
  have : front ++ [q "--remediate", inputFile] = (front ++ [q "--remediate"]) ++ [inputFile] := by
    simp
  rw [this, List.dropLast_concat, List.getLast?_concat]

/-- C14, witness: an online remediation scanner with full capabilities. -/
theorem C14_remediate_after_gate_witness :
    (checkPrerequisites onlineRemediationScanner).ret = true
    ∧ onlineRemediationScanner.mScannerMode = ScannerMode.SM_SCAN_ONLINE_REMEDIATION
    ∧ (buildEvaluationArgs onlineRemediationScanner (q "input.xml") (q "") (q "results.xml")
        (q "report.html") (q "arf.xml") true).dropLast.getLast? = some (q "--remediate") :=
  ⟨by decide, by decide,
   (C14_remediate_after_gate onlineRemediationScanner (q "input.xml") (q "") (q "results.xml")
      (q "report.html") (q "arf.xml") (by decide) (by decide)).2⟩

/-- C15: signalCompletion, for both values of canceled, from every scanner
state and whatever the base class function does, leaves mReadingRuleID = true,
mReadBuffer empty, mLastRuleID empty and mCancelRequested = false, as the
constructor does; hence decoding any input afterwards emits the same signals as
decoding it on a newly constructed scanner with the same capabilities. -/
theorem C15_signalCompletion_resets (base : Bool → OscapScannerBase → Outcome Unit)
    (self : OscapScannerBase) (canceled : Bool) :
    (signalCompletion base self canceled).self.mReadingRuleID = true
    ∧ (signalCompletion base self canceled).self.mReadBuffer = []
    ∧ (signalCompletion base self canceled).self.mLastRuleID = []
    ∧ (signalCompletion base self canceled).self.mCancelRequested = false
    ∧ (signalCompletion base self canceled).self =
        { OscapScannerBase.construct
            (signalCompletion base self canceled).self.mScannerMode
            (signalCompletion base self canceled).self.mSession
            (signalCompletion base self canceled).self.mCapabilities with
          mResults := (signalCompletion base self canceled).self.mResults
          mReport := (signalCompletion base self canceled).self.mReport
          mARF := (signalCompletion base self canceled).self.mARF }
    ∧ (signalCompletion base self canceled).signals = (base canceled self).signals
    ∧ (∀ input : List Char,
        (feedStdOut (signalCompletion base self canceled).self input).1 =
          (feedStdOut (OscapScannerBase.construct
              (signalCompletion base self canceled).self.mScannerMode
              (signalCompletion base self canceled).self.mSession
              (signalCompletion base self canceled).self.mCapabilities) input).1) := by
  refine ⟨rfl, rfl, rfl, rfl, rfl, rfl, ?_⟩
  intro input
  apply (feedStdOut_sameDecoding _ _ input _).1
  exact ⟨rfl, rfl, rfl, fun _ => rfl⟩

/-- C16: watchStdErr, for every sequence of complete stderr lines, emits exactly
one warning whose text contains the whole concatenation of the lines when that
concatenation is non-empty, and no signal at all when it is empty; it never
emits an error message and leaves the scanner unchanged. -/
theorem C16_watchStdErr (self : OscapScannerBase) (lines : List QString) :
    (lines.flatten ≠ [] →
      ∃ text, (watchStdErr self lines).signals = [Signal.warningMessage text]
        ∧ lines.flatten <:+: text)
    ∧ (lines.flatten = [] → (watchStdErr self lines).signals = [])
    ∧ (∀ message, Signal.errorMessage message ∉ (watchStdErr self lines).signals)
    ∧ (watchStdErr self lines).self = self := by
  have e : readStdErrLines [] lines = lines.flatten := by
    rw [readStdErrLines_eq]; rfl
  by_cases h : lines.flatten = []
  · simp [watchStdErr, e, h]
  · have hne : (lines.flatten).isEmpty = false := by
      cases hl : lines.flatten with
      | nil => exact absurd hl h
      | cons x rest => rfl
    refine ⟨fun _ => ⟨arg stdErrFormat lines.flatten, ?_, ?_⟩, fun h2 => absurd h2 h, ?_, ?_⟩
    · simp [watchStdErr, e, hne]
    · rw [arg_stdErrFormat]
      exact (List.suffix_append _ _).isInfix
    · simp [watchStdErr, e, hne]
    · simp [watchStdErr, e, hne]

/-- C16, witness: two lines on stderr give one warning containing both. -/
theorem C16_watchStdErr_witness :
    [q "E: first\n", q "E: second\n"].flatten ≠ []
    ∧ ∃ text, (watchStdErr freshScanner [q "E: first\n", q "E: second\n"]).signals
          = [Signal.warningMessage text]
        ∧ [q "E: first\n", q "E: second\n"].flatten <:+: text :=
  ⟨by decide, (C16_watchStdErr freshScanner [q "E: first\n", q "E: second\n"]).1 (by decide)⟩

/-- C17: buffer invariant. With progressReporting true, after a freshly
constructed scanner has consumed any byte sequence s, mReadBuffer is the part
of s after its last ':' or newline (all of s when s has no delimiter); so the
buffer holds no delimiter, it is empty right after every delimiter, and every
rule id and result of an emitted progress event is free of delimiters. -/
theorem C17_buffer_invariant (mode : ScannerMode) (session : ScanningSession)
    (capabilities : OscapCapabilities) (hp : capabilities.progressReporting = true)
    (s : List Char) :
    (feedStdOut (OscapScannerBase.construct mode session capabilities) s).2.mReadBuffer
        = afterLastDelimiter s
    ∧ (feedStdOut (OscapScannerBase.construct mode session capabilities) s).2.mReadBuffer
        <:+ s
    ∧ ((∀ c ∈ s, isDelimiter c = false) →
        (feedStdOut (OscapScannerBase.construct mode session capabilities) s).2.mReadBuffer = s)
    ∧ delimiterFree
        (feedStdOut (OscapScannerBase.construct mode session capabilities) s).2.mReadBuffer
    ∧ (∀ d, isDelimiter d = true →
        (feedStdOut (OscapScannerBase.construct mode session capabilities)
          (s ++ [d])).2.mReadBuffer = [])
    ∧ (∀ rule_id result, Signal.progressReport rule_id result ∈
          (feedStdOut (OscapScannerBase.construct mode session capabilities) s).1 →
        delimiterFree rule_id ∧ delimiterFree result) := by
  obtain ⟨h1, h2, _, h4⟩ := decoder_invariant mode session capabilities hp s
  refine ⟨h1, ?_, ?_, h2, ?_, h4⟩
  · rw [h1]
    have := List.takeWhile_prefix (fun c => !isDelimiter c) (l := s.reverse)
    have h := List.reverse_suffix.mpr this
    simpa [afterLastDelimiter] using h
  · intro hs
    rw [h1]
    unfold afterLastDelimiter
    rw [List.takeWhile_eq_self_iff.mpr, List.reverse_reverse]
    intro c hc
    simp [hs c (List.mem_reverse.mp hc)]
  · intro d hd
    rw [(decoder_invariant mode session capabilities hp (s ++ [d])).1,
      afterLastDelimiter_concat, if_pos hd]

/-- C17, witness: after "ruleA:pa" the buffer is "pa". -/
theorem C17_buffer_invariant_witness :
    (fullCapabilities (q "1.0.0")).progressReporting = true
    ∧ afterLastDelimiter (q "ruleA:pa") = q "pa"
    ∧ (feedStdOut (OscapScannerBase.construct ScannerMode.SM_SCAN plainSession
          (fullCapabilities (q "1.0.0"))) (q "ruleA:pa")).2.mReadBuffer
        = afterLastDelimiter (q "ruleA:pa") :=
  ⟨by decide, by decide,
   (C17_buffer_invariant ScannerMode.SM_SCAN plainSession (fullCapabilities (q "1.0.0"))
      (by decide) (q "ruleA:pa")).1⟩

/-- C18: no stale rule id can leak. Decoding any byte sequence from two states
that agree on everything but mLastRuleID and are reading a rule id emits the
same signals; consequently, after any input that ends with a newline the
decoder emits on every continuation the signals a freshly constructed scanner
emits. -/
theorem C18_no_stale_rule_id (self : OscapScannerBase) (B L1 L2 : QString)
    (s t : List Char) :
    (feedStdOut { self with mReadingRuleID := true, mReadBuffer := B, mLastRuleID := L1 } s).1
      = (feedStdOut { self with mReadingRuleID := true, mReadBuffer := B,
                                mLastRuleID := L2 } s).1
    ∧ (feedStdOut (feedStdOut self (s ++ ['\n'])).2 t).1
      = (feedStdOut (OscapScannerBase.construct self.mScannerMode self.mSession
          self.mCapabilities) t).1 := by
  constructor
  · apply (feedStdOut_sameDecoding _ _ s _).1
    exact ⟨rfl, rfl, rfl, fun h => by simp at h⟩
  · cases hp : self.mCapabilities.progressReporting with
    | false =>
      have e1 := feedStdOut_no_progress self (s ++ ['\n']) hp
      have e2 := feedStdOut_no_progress self t hp
      have e3 := feedStdOut_no_progress (OscapScannerBase.construct self.mScannerMode
        self.mSession self.mCapabilities) t hp
      rw [e1, e3]
      show (feedStdOut self t).1 = []
      rw [e2]
    | true =>
      apply (feedStdOut_sameDecoding _ _ t _).1
      have hcap := (feedStdOut_capabilities self s).1
      have hps : (feedStdOut self s).2.mCapabilities.progressReporting = true := by
        rw [hcap]; exact hp
      rw [feedStdOut_concat, tryToReadStdOut_newline _ hps]
      exact ⟨by simp [OscapScannerBase.construct, hcap], rfl, rfl, fun h => by simp at h⟩

/-- C19: with progressReporting true, from every starting state, the number of
signals emitted while decoding s equals the number of ':' and newline bytes in
s: a delimiter byte gives exactly one signal and any other byte none; and after
a delimiter mReadingRuleID depends on that delimiter only, false after ':' and
true after a newline. -/
theorem C19_one_signal_per_delimiter (self : OscapScannerBase)
    (hp : self.mCapabilities.progressReporting = true) (s : List Char) :
    (feedStdOut self s).1.length = s.countP isDelimiter
    ∧ s.countP isDelimiter = s.count ':' + s.count '\n'
    ∧ (∀ c, (tryToReadStdOut self (StdOutRead.byte c)).signals.length
        = if c = ':' ∨ c = '\n' then 1 else 0)
    ∧ (tryToReadStdOut self (StdOutRead.byte ':')).self.mReadingRuleID = false
    ∧ (tryToReadStdOut self (StdOutRead.byte '\n')).self.mReadingRuleID = true
    ∧ (feedStdOut self (s ++ [':'])).2.mReadingRuleID = false
    ∧ (feedStdOut self (s ++ ['\n'])).2.mReadingRuleID = true := by
  have hps : (feedStdOut self s).2.mCapabilities.progressReporting = true := by
    rw [(feedStdOut_capabilities self s).1]; exact hp
  refine ⟨feedStdOut_signal_count self s hp, ?_, ?_, ?_, ?_, ?_, ?_⟩
  · induction s with
    | nil => rfl
    | cons c rest ih =>
      have ih2 := ih (by rw [(feedStdOut_capabilities self rest).1]; exact hp)
      simp only [List.countP_cons, List.count_cons, ih2]
      by_cases h1 : c = ':'
      · subst h1; simp +decide; omega
      · by_cases h2 : c = '\n'
        · subst h2; simp +decide; omega
        · simp [isDelimiter, h1, h2]
  · intro c
    by_cases h1 : c = ':'
    · subst h1; rw [tryToReadStdOut_colon self hp]; simp
    · by_cases h2 : c = '\n'
      · subst h2; rw [tryToReadStdOut_newline self hp]; simp
      · rw [tryToReadStdOut_other self c hp h1 h2]; simp [h1, h2]
  · rw [tryToReadStdOut_colon self hp]
  · rw [tryToReadStdOut_newline self hp]
  · rw [feedStdOut_concat, tryToReadStdOut_colon _ hps]
  · rw [feedStdOut_concat, tryToReadStdOut_newline _ hps]

/-- C19, witness: "a:b:c\n" holds three delimiters and gives three signals. -/
theorem C19_one_signal_per_delimiter_witness :
    freshScanner.mCapabilities.progressReporting = true
    ∧ (q "a:b:c\n").countP isDelimiter = 3
    ∧ (feedStdOut freshScanner (q "a:b:c\n")).1.length = (q "a:b:c\n").countP isDelimiter :=
  ⟨by decide, by decide,
   (C19_one_signal_per_delimiter freshScanner (by decide) (q "a:b:c\n")).1⟩

end OscapScanner
